import Mathlib

/-!
# RenderStatistic: the statistics report of a rendered model

A shallow embedding of `src/RenderStatistic.cc` and the properties of its
category filter, its two renderers (`LogVisitor`, `StreamVisitor`) and the
orchestrating `RenderStatistic::printAll`.

Conventions of the embedding.

* The build with `ENABLE_CGAL` defined is the one embedded.
* `double` is a type parameter `R` carrying the two operations the file applies
  to doubles: subtraction and the `%.2f` rendering of the log lines.
* `std::chrono::milliseconds::count()` is a signed integer; `/` and `%` of C++
  truncate toward zero, hence `Int.tdiv` and `Int.tmod`.
* `LOG(group, Location::NONE, "", fmt, args...)` is recorded as the message
  group together with the formatted text; the calls into the two cache
  singletons (`print()`) are recorded as events of their own.
* `assert` is embedded as an abort of the run (a build without `NDEBUG`); what
  was sent to the log before it stays sent, and `finish()` is not reached.
* A null `geom` pointer is `none`; `isEmpty()` is what the geometry reports of
  itself, independently of its counters.
-/

namespace RenderStatistic

/-! ## Category names -/

/-- Modelled from the spec: the header `RenderStatistic.h`, which declares the
category-name constants, is not among the sources; the spec lists the category
names `geometry, bounding_box, camera, cache, time`. -/
def GEOMETRY : String := "geometry"

/-- Modelled from the spec: category name `bounding_box` (declared in the absent
header `RenderStatistic.h`). -/
def BOUNDING_BOX : String := "bounding_box"

/-- Modelled from the spec: category name `camera` (declared in the absent header
`RenderStatistic.h`). -/
def CAMERA : String := "camera"

/-- Modelled from the spec: category name `cache` (declared in the absent header
`RenderStatistic.h`). -/
def CACHE : String := "cache"

/-- Modelled from the spec: category name `time` (declared in the absent header
`RenderStatistic.h`). -/
def TIME : String := "time"

/-- Modelled from the spec: the name of the area category of the 2D log block
(declared in the absent header `RenderStatistic.h`); no property below depends
on its value. -/
def AREA : String := "area"

/-! ## The category filter: `StatisticVisitor` -/

/-- The two private members of `StatisticVisitor`. -/
structure StatisticVisitor where
  all : Bool
  options : List String

/-- Constructor of `StatisticVisitor`:
`all(std::find(options.begin(), options.end(), "all") != options.end())`. -/
def StatisticVisitor.new (options : List String) : StatisticVisitor :=
  { all := options.contains "all", options := options }

/-- Method `is_enabled`:
`all || std::find(options.begin(), options.end(), name) != options.end()`. -/
def StatisticVisitor.is_enabled (v : StatisticVisitor) (name : String) : Bool :=
  v.all || v.options.contains name

/-! ## Doubles, vectors, geometry, camera, caches -/

/-- The operations on `double` used by the file. -/
class DoubleOps (R : Type) where
  /-- Subtraction of doubles. -/
  sub : R → R → R
  /-- Rendering of a double under the format directive `%.2f`. -/
  fmt2 : R → String

/-- Three coordinates, as `Vector3d`. -/
structure Vector3d (R : Type) where
  x : R
  y : R
  z : R

/-- The box returned by `getBoundingBox()`, with its accessors `min()`, `max()`. -/
structure BoundingBox (R : Type) where
  min : Vector3d R
  max : Vector3d R

/-- What the file reads of a `Polygon2d`. -/
structure Polygon2d (R : Type) where
  isEmpty : Bool
  outlines_size : Nat
  area : R
  is_convex : Bool
  getBoundingBox : BoundingBox R

/-- What the file reads of a `PolySet`. -/
structure PolySet (R : Type) where
  isEmpty : Bool
  getDimension : Nat
  numFacets : Nat
  is_convex : Bool
  getBoundingBox : BoundingBox R

/-- What the file reads of a `CGAL_Nef_polyhedron` (the counters are those of
`nef.p3`). -/
structure CGAL_Nef_polyhedron (R : Type) where
  isEmpty : Bool
  getDimension : Nat
  is_simple : Bool
  number_of_vertices : Nat
  number_of_halfedges : Nat
  number_of_edges : Nat
  number_of_halffacets : Nat
  number_of_facets : Nat
  number_of_volumes : Nat
  getBoundingBox : BoundingBox R

/-- The geometry classes a visitor is dispatched on. -/
inductive Geometry (R : Type) where
  | list (isEmpty : Bool) (getChildren : List (Geometry R)) : Geometry R
  | polygon2d (poly : Polygon2d R) : Geometry R
  | polyset (ps : PolySet R) : Geometry R
  | nef (nef : CGAL_Nef_polyhedron R) : Geometry R

/-- Virtual method `Geometry::isEmpty()`. -/
def Geometry.isEmpty {R : Type} : Geometry R → Bool
  | .list e _ => e
  | .polygon2d p => p.isEmpty
  | .polyset p => p.isEmpty
  | .nef n => n.isEmpty

/-- The condition the two `visit(const PolySet&)` overloads assert of their
argument: `ps.getDimension() == 3`. The other classes carry no assertion. -/
def Geometry.dimensionAsserted {R : Type} : Geometry R → Bool
  | .polyset ps => decide (ps.getDimension = 3)
  | _ => true

/-- What the file reads of a `Camera`. -/
structure Camera (R : Type) where
  getVpt : Vector3d R
  getVpr : Vector3d R
  zoomValue : R
  fovValue : R

/-- What `getCache` reads of a cache singleton. -/
structure Cache where
  size : Nat
  totalCost : Nat
  maxSizeMB : Nat

/-- State outside the call: the two cache singletons and whether
`std::ofstream(filename)` manages to open the file. -/
structure Env where
  geometryCache : Cache
  cgalCache : Cache
  canOpen : String → Bool

/-! ## JSON documents (`nlohmann::json`) -/

/-- A JSON value. -/
inductive Json (R : Type) where
  | null : Json R
  | boolean (b : Bool) : Json R
  | number_integer (n : Int) : Json R
  | number_float (x : R) : Json R
  | string (s : String) : Json R
  | array (xs : List (Json R)) : Json R
  | object (kvs : List (String × Json R)) : Json R

/-- Insert-or-assign in the key-ordered member list of an object (`std::map`). -/
def Json.insertKey {R : Type} (k : String) (v : Json R) :
    List (String × Json R) → List (String × Json R)
  | [] => [(k, v)]
  | (k', v') :: rest =>
    if k < k' then (k, v) :: (k', v') :: rest
    else if k = k' then (k, v) :: rest
    else (k', v') :: Json.insertKey k v rest

/-- The assignment `j[k] = v`. A null receiver becomes an object. On any other
non-object receiver nlohmann raises a type error; every receiver in this file
starts as null and is only ever assigned through `operator[]`, so that branch is
never taken and leaves the value as it is. -/
def Json.set {R : Type} (j : Json R) (k : String) (v : Json R) : Json R :=
  match j with
  | .null => .object [(k, v)]
  | .object kvs => .object (Json.insertKey k v kvs)
  | other => other

/-- Member lookup: the value stored under key `k`, if `j` is an object with that
key. -/
def Json.find {R : Type} (j : Json R) (k : String) : Option (Json R) :=
  match j with
  | .object kvs => kvs.lookup k
  | _ => none

/-- Whether `j` is an object with key `k`. -/
def Json.contains {R : Type} (j : Json R) (k : String) : Bool :=
  (j.find k).isSome

/-- A `std::array<double, N>` stored as a JSON array. -/
def Json.doubles {R : Type} (xs : List R) : Json R :=
  .array (xs.map Json.number_float)

/-- A `size_t` stored as a JSON number. -/
def Json.size_t {R : Type} (n : Nat) : Json R :=
  .number_integer (n : Int)

/-! ## Format directives -/

/-- Left padding of `s` with `c` up to width `w`. -/
def padLeft (w : Nat) (c : Char) (s : String) : String :=
  String.mk (List.replicate (w - s.length) c) ++ s

/-- Directive `%d`. -/
def fmtD (n : Int) : String := toString n

/-- Directive `%0wd`: zero fill between the sign and the digits. -/
def fmtD0 (w : Nat) (n : Int) : String :=
  if n < 0 then "-" ++ padLeft (w - 1) '0' (toString n.natAbs)
  else padLeft w '0' (toString n.toNat)

/-- Directive `%wd`: right-justified in width `w`. -/
def fmtDw (w : Nat) (n : Int) : String := padLeft w ' ' (toString n)

/-- Directive `%ws`: right-justified in width `w`. -/
def fmtSw (w : Nat) (s : String) : String := padLeft w ' ' s

/-- The format `%1$d:%2$02d:%3$02d.%4$03d` applied to four integers. -/
def formatTime (a b c d : Int) : String :=
  fmtD a ++ ":" ++ fmtD0 2 b ++ ":" ++ fmtD0 2 c ++ "." ++ fmtD0 3 d

/-! ## The log sink -/

/-- The message groups used by the file. -/
inductive message_group where
  | None
  | UI_Warning
  deriving DecidableEq, Repr

/-- An effect on the log: a `LOG` call, or a `print()` of a cache singleton. -/
inductive LogEvent where
  | LOG (group : message_group) (text : String)
  | GeometryCache_print
  | CGALCache_print
  deriving DecidableEq, Repr

/-- Whether an event is a line of warning severity. -/
def LogEvent.isWarning : LogEvent → Bool
  | .LOG .UI_Warning _ => true
  | _ => false

/-- A `LOG` call of group `message_group::None`. -/
def logNone (text : String) : LogEvent := .LOG .None text

/-! ## `LogVisitor` -/

namespace LogVisitor

/-- Method `LogVisitor::visit(const GeometryList&)`. -/
def visit_GeometryList {R : Type} (_v : StatisticVisitor) (getChildren : List (Geometry R)) :
    List LogEvent :=
  [ logNone "Top level object is a list of objects:",
    logNone ("   Objects:    " ++ fmtD getChildren.length) ]

/-- Method `LogVisitor::visit(const Polygon2d&)`. -/
def visit_Polygon2d {R : Type} [DoubleOps R] (v : StatisticVisitor) (poly : Polygon2d R) :
    List LogEvent :=
  [ logNone "Top level object is a 2D object:",
    logNone ("   Contours:   " ++ fmtDw 6 poly.outlines_size) ]
  ++ (if v.is_enabled BOUNDING_BOX then
        let bb := poly.getBoundingBox
        [ logNone "Bounding box:",
          logNone ("   Min:  " ++ DoubleOps.fmt2 bb.min.x ++ ", " ++ DoubleOps.fmt2 bb.min.y),
          logNone ("   Max:  " ++ DoubleOps.fmt2 bb.max.x ++ ", " ++ DoubleOps.fmt2 bb.max.y),
          logNone ("   Size: " ++ DoubleOps.fmt2 (DoubleOps.sub bb.max.x bb.min.x) ++ ", "
            ++ DoubleOps.fmt2 (DoubleOps.sub bb.max.y bb.min.y)) ]
      else [])
  ++ (if v.is_enabled AREA then
        [ logNone "Measurements:",
          logNone ("   Area: " ++ DoubleOps.fmt2 poly.area) ]
      else [])

/-- Method `LogVisitor::printBoundingBox3`. -/
def printBoundingBox3 {R : Type} [DoubleOps R] (v : StatisticVisitor) (bb : BoundingBox R) :
    List LogEvent :=
  if v.is_enabled BOUNDING_BOX then
    [ logNone "Bounding box:",
      logNone ("   Min:  " ++ DoubleOps.fmt2 bb.min.x ++ ", " ++ DoubleOps.fmt2 bb.min.y ++ ", "
        ++ DoubleOps.fmt2 bb.min.z),
      logNone ("   Max:  " ++ DoubleOps.fmt2 bb.max.x ++ ", " ++ DoubleOps.fmt2 bb.max.y ++ ", "
        ++ DoubleOps.fmt2 bb.max.z),
      logNone ("   Size: " ++ DoubleOps.fmt2 (DoubleOps.sub bb.max.x bb.min.x) ++ ", "
        ++ DoubleOps.fmt2 (DoubleOps.sub bb.max.y bb.min.y) ++ ", "
        ++ DoubleOps.fmt2 (DoubleOps.sub bb.max.z bb.min.z)) ]
  else []

/-- Method `LogVisitor::visit(const PolySet&)`; `none` is the failed
`assert(ps.getDimension() == 3)`, which comes before any output. -/
def visit_PolySet {R : Type} [DoubleOps R] (v : StatisticVisitor) (ps : PolySet R) :
    Option (List LogEvent) :=
  if ps.getDimension = 3 then
    some ([ logNone "Top level object is a 3D object:",
            logNone ("   Facets:     " ++ fmtDw 6 ps.numFacets) ]
          ++ printBoundingBox3 v ps.getBoundingBox)
  else none

/-- Method `LogVisitor::visit(const CGAL_Nef_polyhedron&)`. -/
def visit_CGAL_Nef_polyhedron {R : Type} [DoubleOps R] (v : StatisticVisitor)
    (nef : CGAL_Nef_polyhedron R) : List LogEvent :=
  if nef.getDimension = 3 then
    let simple := nef.is_simple
    [ logNone "Top level object is a 3D object:",
      logNone ("   Simple:     " ++ fmtSw 6 (if simple then "yes" else "no")),
      logNone ("   Vertices:   " ++ fmtDw 6 nef.number_of_vertices),
      logNone ("   Halfedges:  " ++ fmtDw 6 nef.number_of_halfedges),
      logNone ("   Edges:      " ++ fmtDw 6 nef.number_of_edges),
      logNone ("   Halffacets: " ++ fmtDw 6 nef.number_of_halffacets),
      logNone ("   Facets:     " ++ fmtDw 6 nef.number_of_facets),
      logNone ("   Volumes:    " ++ fmtDw 6 nef.number_of_volumes) ]
    ++ (if !simple then
          [ LogEvent.LOG .UI_Warning "Object may not be a valid 2-manifold and may need repair!" ]
        else [])
    ++ printBoundingBox3 v nef.getBoundingBox
  else []

/-- Method `LogVisitor::printCamera`. -/
def printCamera {R : Type} [DoubleOps R] (v : StatisticVisitor) (camera : Camera R) :
    List LogEvent :=
  if v.is_enabled CAMERA then
    [ logNone "Camera:",
      logNone ("   Translation: " ++ DoubleOps.fmt2 camera.getVpt.x ++ ", "
        ++ DoubleOps.fmt2 camera.getVpt.y ++ ", " ++ DoubleOps.fmt2 camera.getVpt.z),
      logNone ("   Rotation:    " ++ DoubleOps.fmt2 camera.getVpr.x ++ ", "
        ++ DoubleOps.fmt2 camera.getVpr.y ++ ", " ++ DoubleOps.fmt2 camera.getVpr.z),
      logNone ("   Distance:    " ++ DoubleOps.fmt2 camera.zoomValue),
      logNone ("   FOV:         " ++ DoubleOps.fmt2 camera.fovValue) ]
  else []

/-- Method `LogVisitor::printCacheStatistic` (always enabled). -/
def printCacheStatistic (_v : StatisticVisitor) : List LogEvent :=
  [ LogEvent.GeometryCache_print, LogEvent.CGALCache_print ]

/-- Method `LogVisitor::printRenderingTime` (always enabled). -/
def printRenderingTime (_v : StatisticVisitor) (ms : Int) : List LogEvent :=
  [ logNone ("Total rendering time: " ++
      formatTime (((ms.tdiv 1000).tdiv 60).tdiv 60)
                 (((ms.tdiv 1000).tdiv 60).tmod 60)
                 ((ms.tdiv 1000).tmod 60)
                 (ms.tmod 1000)) ]

/-- Method `LogVisitor::finish`. -/
def finish (_v : StatisticVisitor) : List LogEvent := []

/-- The `visit` overload of `LogVisitor` selected by the class of `geom`; `none` is
a failed assertion. -/
def accept {R : Type} [DoubleOps R] (v : StatisticVisitor) : Geometry R → Option (List LogEvent)
  | .list _ getChildren => some (visit_GeometryList v getChildren)
  | .polygon2d poly => some (visit_Polygon2d v poly)
  | .polyset ps => visit_PolySet v ps
  | .nef nef => some (visit_CGAL_Nef_polyhedron v nef)

end LogVisitor

/-! ## `StreamVisitor` -/

/-- Function `getBoundingBox2`. -/
def getBoundingBox2 {R : Type} [DoubleOps R] (bb : BoundingBox R) : Json R :=
  let min := [bb.min.x, bb.min.y]
  let max := [bb.max.x, bb.max.y]
  let size := [DoubleOps.sub bb.max.x bb.min.x, DoubleOps.sub bb.max.y bb.min.y]
  let bbJson : Json R := .null
  let bbJson := bbJson.set "min" (Json.doubles min)
  let bbJson := bbJson.set "max" (Json.doubles max)
  let bbJson := bbJson.set "size" (Json.doubles size)
  bbJson

/-- Function `getBoundingBox3`. -/
def getBoundingBox3 {R : Type} [DoubleOps R] (bb : BoundingBox R) : Json R :=
  let min := [bb.min.x, bb.min.y, bb.min.z]
  let max := [bb.max.x, bb.max.y, bb.max.z]
  let size := [DoubleOps.sub bb.max.x bb.min.x, DoubleOps.sub bb.max.y bb.min.y,
    DoubleOps.sub bb.max.z bb.min.z]
  let bbJson : Json R := .null
  let bbJson := bbJson.set "min" (Json.doubles min)
  let bbJson := bbJson.set "max" (Json.doubles max)
  let bbJson := bbJson.set "size" (Json.doubles size)
  bbJson

/-- Function `getCache`; the product is computed in `size_t` (64 bits). -/
def getCache {R : Type} (cache : Cache) : Json R :=
  let cacheJson : Json R := .null
  let cacheJson := cacheJson.set "entries" (Json.size_t cache.size)
  let cacheJson := cacheJson.set "bytes" (Json.size_t cache.totalCost)
  let cacheJson := cacheJson.set "max_size" (Json.size_t (cache.maxSizeMB * 1024 * 1024 % 2 ^ 64))
  cacheJson

namespace StreamVisitor

/-- Method `StreamVisitor::visit(const GeometryList&)`: the body is empty. -/
def visit_GeometryList {R : Type} (_v : StatisticVisitor) (_getChildren : List (Geometry R))
    (json : Json R) : Json R :=
  json

/-- Method `StreamVisitor::visit(const Polygon2d&)`. -/
def visit_Polygon2d {R : Type} [DoubleOps R] (v : StatisticVisitor) (poly : Polygon2d R)
    (json : Json R) : Json R :=
  if v.is_enabled GEOMETRY then
    let geometryJson : Json R := .null
    let geometryJson := geometryJson.set "dimensions" (.number_integer 2)
    let geometryJson := geometryJson.set "convex" (.boolean poly.is_convex)
    let geometryJson := geometryJson.set "contours" (Json.size_t poly.outlines_size)
    let geometryJson :=
      if v.is_enabled BOUNDING_BOX then
        geometryJson.set "bounding_box" (getBoundingBox2 poly.getBoundingBox)
      else geometryJson
    json.set "geometry" geometryJson
  else json

/-- Method `StreamVisitor::visit(const PolySet&)`; `none` is the failed
`assert(ps.getDimension() == 3)`, reached only when `geometry` is enabled. -/
def visit_PolySet {R : Type} [DoubleOps R] (v : StatisticVisitor) (ps : PolySet R)
    (json : Json R) : Option (Json R) :=
  if v.is_enabled GEOMETRY then
    if ps.getDimension = 3 then
      let geometryJson : Json R := .null
      let geometryJson := geometryJson.set "dimensions" (.number_integer 3)
      let geometryJson := geometryJson.set "convex" (.boolean ps.is_convex)
      let geometryJson := geometryJson.set "facets" (Json.size_t ps.numFacets)
      let geometryJson :=
        if v.is_enabled BOUNDING_BOX then
          geometryJson.set "bounding_box" (getBoundingBox3 ps.getBoundingBox)
        else geometryJson
      some (json.set "geometry" geometryJson)
    else none
  else some json

/-- Method `StreamVisitor::visit(const CGAL_Nef_polyhedron&)`. -/
def visit_CGAL_Nef_polyhedron {R : Type} [DoubleOps R] (v : StatisticVisitor)
    (nef : CGAL_Nef_polyhedron R) (json : Json R) : Json R :=
  if v.is_enabled GEOMETRY then
    let geometryJson : Json R := .null
    let geometryJson := geometryJson.set "dimensions" (.number_integer 3)
    let geometryJson := geometryJson.set "simple" (.boolean nef.is_simple)
    let geometryJson := geometryJson.set "vertices" (Json.size_t nef.number_of_vertices)
    let geometryJson := geometryJson.set "edges" (Json.size_t nef.number_of_edges)
    let geometryJson := geometryJson.set "facets" (Json.size_t nef.number_of_facets)
    let geometryJson := geometryJson.set "volumes" (Json.size_t nef.number_of_volumes)
    let geometryJson :=
      if v.is_enabled BOUNDING_BOX then
        geometryJson.set "bounding_box" (getBoundingBox3 nef.getBoundingBox)
      else geometryJson
    json.set "geometry" geometryJson
  else json

/-- Method `StreamVisitor::printCamera`. -/
def printCamera {R : Type} (v : StatisticVisitor) (camera : Camera R) (json : Json R) : Json R :=
  if v.is_enabled CAMERA then
    let translation := [camera.getVpt.x, camera.getVpt.y, camera.getVpt.z]
    let rotation := [camera.getVpr.x, camera.getVpr.y, camera.getVpr.z]
    let cameraJson : Json R := .null
    let cameraJson := cameraJson.set "translation" (Json.doubles translation)
    let cameraJson := cameraJson.set "rotation" (Json.doubles rotation)
    let cameraJson := cameraJson.set "distance" (.number_float camera.zoomValue)
    let cameraJson := cameraJson.set "fov" (.number_float camera.fovValue)
    json.set "camera" cameraJson
  else json

/-- Method `StreamVisitor::printCacheStatistic`. -/
def printCacheStatistic {R : Type} (v : StatisticVisitor) (env : Env) (json : Json R) : Json R :=
  if v.is_enabled CACHE then
    let cacheJson : Json R := .null
    let cacheJson := cacheJson.set "geometry_cache" (getCache env.geometryCache)
    let cacheJson := cacheJson.set "cgal_cache" (getCache env.cgalCache)
    json.set "cache" cacheJson
  else json

/-- Method `StreamVisitor::printRenderingTime`. -/
def printRenderingTime {R : Type} (v : StatisticVisitor) (ms : Int) (json : Json R) : Json R :=
  if v.is_enabled TIME then
    let timeJson : Json R := .null
    let timeJson := timeJson.set "time" (.string
      (formatTime (((ms.tdiv 1000).tdiv 60).tdiv 60)
                  (((ms.tdiv 1000).tdiv 60).tmod 60)
                  ((ms.tdiv 1000).tmod 60)
                  (ms.tmod 1000)))
    let timeJson := timeJson.set "total" (.number_integer ms)
    let timeJson := timeJson.set "milliseconds" (.number_integer (ms.tmod 1000))
    let timeJson := timeJson.set "seconds" (.number_integer ((ms.tdiv 1000).tmod 60))
    let timeJson := timeJson.set "minutes" (.number_integer (((ms.tdiv 1000).tdiv 60).tmod 60))
    let timeJson := timeJson.set "hours" (.number_integer (((ms.tdiv 1000).tdiv 60).tdiv 60))
    json.set "time" timeJson
  else json

/-- The `visit` overload of `StreamVisitor` selected by the class of `geom`; `none`
is a failed assertion. -/
def accept {R : Type} [DoubleOps R] (v : StatisticVisitor) (geom : Geometry R) (json : Json R) :
    Option (Json R) :=
  match geom with
  | .list _ getChildren => some (visit_GeometryList v getChildren json)
  | .polygon2d poly => some (visit_Polygon2d v poly json)
  | .polyset ps => visit_PolySet v ps json
  | .nef nef => some (visit_CGAL_Nef_polyhedron v nef json)

end StreamVisitor

/-! ## The orchestrator: `RenderStatistic::printAll` -/

/-- The stream a `StreamVisitor` writes to: `std::cout`, or its own `fstream`
constructed from a file name (open or not after the constructor). -/
inductive Stream where
  | cout
  | fstream (filename : String) (is_open : Bool)

/-- The object behind `std::unique_ptr<StatisticVisitor> visitor`: one of the two
renderers with its state. For the log renderer the state is what has been sent to
the log so far, for the stream renderer the member `json` and the stream. -/
inductive Visitor (R : Type) where
  | LogVisitor (base : StatisticVisitor) (sent : List LogEvent) : Visitor R
  | StreamVisitor (base : StatisticVisitor) (json : Json R) (stream : Stream) : Visitor R

namespace Visitor

/-- Virtual call `visitor->printCacheStatistic()`. -/
def printCacheStatistic {R : Type} (env : Env) : Visitor R → Visitor R
  | .LogVisitor v sent => .LogVisitor v (sent ++ LogVisitor.printCacheStatistic v)
  | .StreamVisitor v json stream =>
    .StreamVisitor v (StreamVisitor.printCacheStatistic v env json) stream

/-- Virtual call `visitor->printRenderingTime(ms)`. -/
def printRenderingTime {R : Type} (ms : Int) : Visitor R → Visitor R
  | .LogVisitor v sent => .LogVisitor v (sent ++ LogVisitor.printRenderingTime v ms)
  | .StreamVisitor v json stream =>
    .StreamVisitor v (StreamVisitor.printRenderingTime v ms json) stream

/-- Virtual call `visitor->printCamera(camera)`. -/
def printCamera {R : Type} [DoubleOps R] (camera : Camera R) : Visitor R → Visitor R
  | .LogVisitor v sent => .LogVisitor v (sent ++ LogVisitor.printCamera v camera)
  | .StreamVisitor v json stream =>
    .StreamVisitor v (StreamVisitor.printCamera v camera json) stream

/-- Double dispatch `geom->accept(*visitor)`: the `visit` overload of the class
of `geom` on the renderer; `none` is a failed assertion. -/
def accept {R : Type} [DoubleOps R] (geom : Geometry R) : Visitor R → Option (Visitor R)
  | .LogVisitor v sent =>
    (LogVisitor.accept v geom).map (fun out => .LogVisitor v (sent ++ out))
  | .StreamVisitor v json stream =>
    (StreamVisitor.accept v geom json).map (fun j => .StreamVisitor v j stream)

end Visitor

/-- What a call of `printAll` leaves behind. -/
structure Outcome (R : Type) where
  /-- The events on the log, in order. -/
  log : List LogEvent
  /-- The name of the file created or truncated by the `std::ofstream`
  constructor, if it opened one. -/
  opened : Option String
  /-- The value of the member `json` handed to `stream << json` by `finish()`. -/
  document : Option (Json R)
  /-- The document that reached `std::cout`. -/
  cout : Option (Json R)
  /-- The document that reached the opened file. -/
  file : Option (String × Json R)
  /-- Whether the run ended in a failed `assert`. -/
  aborted : Bool
  /-- Whether an exception left `printAll` (no statement of the file throws). -/
  thrown : Bool

/-- The file a visitor holds open, if any. -/
def Visitor.openedFile {R : Type} : Visitor R → Option String
  | .StreamVisitor _ _ (.fstream filename true) => some filename
  | _ => none

/-- The log as sent so far by a visitor. -/
def Visitor.sent {R : Type} : Visitor R → List LogEvent
  | .LogVisitor _ sent => sent
  | .StreamVisitor _ _ _ => []

/-- Virtual call `visitor->finish()` followed by the destruction of the visitor:
`LogVisitor::finish` does nothing; `StreamVisitor::finish` is `stream << json`,
which has no effect on an `fstream` that is not open. -/
def Visitor.finish {R : Type} : Visitor R → Outcome R
  | .LogVisitor v sent =>
    { log := sent ++ LogVisitor.finish v, opened := none, document := none, cout := none,
      file := none, aborted := false, thrown := false }
  | .StreamVisitor _ json .cout =>
    { log := [], opened := none, document := some json, cout := some json,
      file := none, aborted := false, thrown := false }
  | .StreamVisitor _ json (.fstream filename is_open) =>
    { log := [], opened := if is_open then some filename else none, document := some json,
      cout := none, file := if is_open then some (filename, json) else none,
      aborted := false, thrown := false }

/-- The state left by a failed `assert` inside `accept`: what was logged and
opened before it, and nothing written. -/
def Visitor.abort {R : Type} (visitor : Visitor R) : Outcome R :=
  { log := visitor.sent, opened := visitor.openedFile, document := none, cout := none,
    file := none, aborted := true, thrown := false }

/-- Function `RenderStatistic::printAll`; `ms` is the value returned by `ms()`, the
reading of the clock since `start()`, and `geom` is `none` for a null pointer. -/
def printAll {R : Type} [DoubleOps R] (env : Env) (ms : Int) (geom : Option (Geometry R))
    (camera : Camera R) (options : List String) (filename : String) : Outcome R :=
  let visitor : Visitor R :=
    if filename = "" then
      .LogVisitor (StatisticVisitor.new options) []
    else if filename = "-" then
      .StreamVisitor (StatisticVisitor.new options) .null .cout
    else
      .StreamVisitor (StatisticVisitor.new options) .null
        (.fstream filename (env.canOpen filename))
  let visitor := visitor.printCacheStatistic env
  let visitor := visitor.printRenderingTime ms
  let visited : Option (Visitor R) :=
    match geom with
    | some g => if !g.isEmpty then visitor.accept g else some visitor
    | none => some visitor
  match visited with
  | none => visitor.abort
  | some visitor =>
    let visitor := visitor.printCamera camera
    visitor.finish

/-- The member `json` of the stream renderer when `printAll` reaches
`printCamera`: after the cache, time and geometry steps; `none` is a failed
assertion. -/
def StreamVisitor.beforeCamera {R : Type} [DoubleOps R] (env : Env) (ms : Int)
    (geom : Option (Geometry R)) (options : List String) : Option (Json R) :=
  let v := StatisticVisitor.new options
  let json := StreamVisitor.printRenderingTime v ms (StreamVisitor.printCacheStatistic v env .null)
  match geom with
  | some g => if !g.isEmpty then StreamVisitor.accept v g json else some json
  | none => some json

/-- What the log renderer sends for the geometry step of `printAll`; `none` is a
failed assertion. -/
def LogVisitor.geometryStep {R : Type} [DoubleOps R] (geom : Option (Geometry R))
    (options : List String) : Option (List LogEvent) :=
  match geom with
  | some g => if !g.isEmpty then LogVisitor.accept (StatisticVisitor.new options) g else some []
  | none => some []

/-- The local `timeJson` of `StreamVisitor::printRenderingTime`, as that method
builds it. -/
def StreamVisitor.timeJson {R : Type} (ms : Int) : Json R :=
  let timeJson : Json R := .null
  let timeJson := timeJson.set "time" (.string
    (formatTime (((ms.tdiv 1000).tdiv 60).tdiv 60)
                (((ms.tdiv 1000).tdiv 60).tmod 60)
                ((ms.tdiv 1000).tmod 60)
                (ms.tmod 1000)))
  let timeJson := timeJson.set "total" (.number_integer ms)
  let timeJson := timeJson.set "milliseconds" (.number_integer (ms.tmod 1000))
  let timeJson := timeJson.set "seconds" (.number_integer ((ms.tdiv 1000).tmod 60))
  let timeJson := timeJson.set "minutes" (.number_integer (((ms.tdiv 1000).tdiv 60).tmod 60))
  let timeJson := timeJson.set "hours" (.number_integer (((ms.tdiv 1000).tdiv 60).tdiv 60))
  timeJson

/-- The composite time string as the spec words it: `H:MM:SS.mmm` with
`H = T/3600000` unpadded, `MM = (T/60000) mod 60` zero-padded to 2,
`SS = (T/1000) mod 60` zero-padded to 2, `mmm = T mod 1000` zero-padded to 3,
for a duration of `T` milliseconds. -/
def specTimeString (T : Nat) : String :=
  toString (T / 3600000) ++ ":" ++ padLeft 2 '0' (toString (T / 60000 % 60)) ++ ":"
    ++ padLeft 2 '0' (toString (T / 1000 % 60)) ++ "." ++ padLeft 3 '0' (toString (T % 1000))

/-- The zero-padded rendering `H:MM:SS.mmm` of four decomposed fields. -/
def specRenderFields (hours minutes seconds milliseconds : Nat) : String :=
  toString hours ++ ":" ++ padLeft 2 '0' (toString minutes) ++ ":"
    ++ padLeft 2 '0' (toString seconds) ++ "." ++ padLeft 3 '0' (toString milliseconds)

/-- The local `geometryJson` of `StreamVisitor::visit(const Polygon2d&)`, as that
method builds it. -/
def StreamVisitor.geometryJson_Polygon2d {R : Type} [DoubleOps R] (v : StatisticVisitor)
    (poly : Polygon2d R) : Json R :=
  let geometryJson : Json R := .null
  let geometryJson := geometryJson.set "dimensions" (.number_integer 2)
  let geometryJson := geometryJson.set "convex" (.boolean poly.is_convex)
  let geometryJson := geometryJson.set "contours" (Json.size_t poly.outlines_size)
  let geometryJson :=
    if v.is_enabled BOUNDING_BOX then
      geometryJson.set "bounding_box" (getBoundingBox2 poly.getBoundingBox)
    else geometryJson
  geometryJson

/-- The local `geometryJson` of `StreamVisitor::visit(const PolySet&)`, as that
method builds it. -/
def StreamVisitor.geometryJson_PolySet {R : Type} [DoubleOps R] (v : StatisticVisitor)
    (ps : PolySet R) : Json R :=
  let geometryJson : Json R := .null
  let geometryJson := geometryJson.set "dimensions" (.number_integer 3)
  let geometryJson := geometryJson.set "convex" (.boolean ps.is_convex)
  let geometryJson := geometryJson.set "facets" (Json.size_t ps.numFacets)
  let geometryJson :=
    if v.is_enabled BOUNDING_BOX then
      geometryJson.set "bounding_box" (getBoundingBox3 ps.getBoundingBox)
    else geometryJson
  geometryJson

/-- The local `geometryJson` of `StreamVisitor::visit(const CGAL_Nef_polyhedron&)`,
as that method builds it. -/
def StreamVisitor.geometryJson_CGAL_Nef_polyhedron {R : Type} [DoubleOps R]
    (v : StatisticVisitor) (nef : CGAL_Nef_polyhedron R) : Json R :=
  let geometryJson : Json R := .null
  let geometryJson := geometryJson.set "dimensions" (.number_integer 3)
  let geometryJson := geometryJson.set "simple" (.boolean nef.is_simple)
  let geometryJson := geometryJson.set "vertices" (Json.size_t nef.number_of_vertices)
  let geometryJson := geometryJson.set "edges" (Json.size_t nef.number_of_edges)
  let geometryJson := geometryJson.set "facets" (Json.size_t nef.number_of_facets)
  let geometryJson := geometryJson.set "volumes" (Json.size_t nef.number_of_volumes)
  let geometryJson :=
    if v.is_enabled BOUNDING_BOX then
      geometryJson.set "bounding_box" (getBoundingBox3 nef.getBoundingBox)
    else geometryJson
  geometryJson

/-- The `geometry` section the stream renderer builds for a geometry, by class; a
list has none. -/
def StreamVisitor.geometryJson {R : Type} [DoubleOps R] (v : StatisticVisitor) :
    Geometry R → Option (Json R)
  | .list _ _ => none
  | .polygon2d poly => some (StreamVisitor.geometryJson_Polygon2d v poly)
  | .polyset ps => some (StreamVisitor.geometryJson_PolySet v ps)
  | .nef nef => some (StreamVisitor.geometryJson_CGAL_Nef_polyhedron v nef)

/-- Rational numbers with exact subtraction, standing in for doubles in the
concrete instances below (whose coordinates are exactly representable); the
two-decimal rendering rounds to the nearest hundredth. -/
instance : DoubleOps ℚ where
  sub := fun a b => a - b
  fmt2 := fun q =>
    let h : Int := round (q * 100)
    (if h < 0 then "-" else "") ++ toString (h.natAbs / 100) ++ "."
      ++ padLeft 2 '0' (toString (h.natAbs % 100))

/-- A concrete environment: two caches and a file system in which only
`stats.json` can be opened. -/
def exampleEnv : Env :=
  { geometryCache := { size := 3, totalCost := 4096, maxSizeMB := 100 },
    cgalCache := { size := 1, totalCost := 2048, maxSizeMB := 100 },
    canOpen := fun name => name = "stats.json" }

/-- A concrete camera: distance 10, field of view 22.5. -/
def exampleCamera : Camera ℚ :=
  { getVpt := ⟨0, 0, 0⟩, getVpr := ⟨55, 0, 25⟩, zoomValue := 10, fovValue := 45 / 2 }

/-- A concrete solid: 12 facets, bounding box from (0,0,0) to (1,1,1). -/
def exampleCube : PolySet ℚ :=
  { isEmpty := false, getDimension := 3, numFacets := 12, is_convex := true,
    getBoundingBox := ⟨⟨0, 0, 0⟩, ⟨1, 1, 1⟩⟩ }

/-- A concrete polygon: one outline, the unit square. -/
def exampleSquare : Polygon2d ℚ :=
  { isEmpty := false, outlines_size := 1, area := 1, is_convex := true,
    getBoundingBox := ⟨⟨0, 0, 0⟩, ⟨1, 1, 0⟩⟩ }

/-- A concrete manifold solid that is not simple. -/
def exampleNef : CGAL_Nef_polyhedron ℚ :=
  { isEmpty := false, getDimension := 3, is_simple := false, number_of_vertices := 8,
    number_of_halfedges := 24, number_of_edges := 12, number_of_halffacets := 12,
    number_of_facets := 6, number_of_volumes := 2,
    getBoundingBox := ⟨⟨0, 0, 0⟩, ⟨1, 1, 1⟩⟩ }

/-- A concrete solid without facets, which reports itself empty. -/
def exampleEmptySolid : PolySet ℚ :=
  { isEmpty := true, getDimension := 3, numFacets := 0, is_convex := true,
    getBoundingBox := ⟨⟨0, 0, 0⟩, ⟨0, 0, 0⟩⟩ }

/-- A document that `operator[]` can be applied to: null or an object. -/
def Json.isDoc {R : Type} : Json R → Bool
  | .null => true
  | .object _ => true
  | _ => false

/-! ## Lemmas on the filter and on documents -/

theorem is_enabled_new (options : List String) (name : String) :
    (StatisticVisitor.new options).is_enabled name = true ↔
      "all" ∈ options ∨ name ∈ options := by
  simp [StatisticVisitor.new, StatisticVisitor.is_enabled]

theorem lookup_insertKey_self {R : Type} (k : String) (v : Json R)
    (kvs : List (String × Json R)) : (Json.insertKey k v kvs).lookup k = some v := by
  induction kvs with
  | nil => simp [Json.insertKey, List.lookup]
  | cons p rest ih =>
    obtain ⟨k', v'⟩ := p
    unfold Json.insertKey
    by_cases h1 : k < k'
    · simp [h1, List.lookup]
    · by_cases h2 : k = k'
      · simp [h1, h2, List.lookup]
      · have h3 : (k == k') = false := by simpa using h2
        simp [h1, h2, List.lookup, h3, ih]

theorem lookup_insertKey_other {R : Type} (k k0 : String) (v : Json R) (hk : k0 ≠ k)
    (kvs : List (String × Json R)) : (Json.insertKey k v kvs).lookup k0 = kvs.lookup k0 := by
  have hk' : (k0 == k) = false := by simpa using hk
  induction kvs with
  | nil => simp [Json.insertKey, List.lookup, hk']
  | cons p rest ih =>
    obtain ⟨k', v'⟩ := p
    unfold Json.insertKey
    by_cases h1 : k < k'
    · simp [h1, List.lookup, hk']
    · by_cases h2 : k = k'
      · subst h2
        simp [h1, List.lookup, hk']
      · simp only [h1, h2, if_false, List.lookup]
        rw [ih]

theorem Json.find_set_self {R : Type} (j : Json R) (k : String) (v : Json R)
    (hj : j.isDoc = true) : (j.set k v).find k = some v := by
  cases j <;> simp_all [Json.isDoc, Json.set, Json.find, lookup_insertKey_self, List.lookup]

theorem Json.find_set_other {R : Type} (j : Json R) (k k0 : String) (v : Json R)
    (hk : k0 ≠ k) : (j.set k v).find k0 = j.find k0 := by
  have hk' : (k0 == k) = false := by simpa using hk
  cases j <;> simp [Json.set, Json.find, lookup_insertKey_other _ _ _ hk, List.lookup, hk']

theorem Json.isDoc_set {R : Type} (j : Json R) (k : String) (v : Json R)
    (hj : j.isDoc = true) : (j.set k v).isDoc = true := by
  cases j <;> simp_all [Json.isDoc, Json.set]

theorem StreamVisitor.isDoc_printCacheStatistic {R : Type} (v : StatisticVisitor) (env : Env)
    (j : Json R) (hj : j.isDoc = true) : (StreamVisitor.printCacheStatistic v env j).isDoc = true := by
  unfold StreamVisitor.printCacheStatistic
  split
  · exact Json.isDoc_set _ _ _ hj
  · exact hj

theorem StreamVisitor.isDoc_printRenderingTime {R : Type} (v : StatisticVisitor) (ms : Int)
    (j : Json R) (hj : j.isDoc = true) : (StreamVisitor.printRenderingTime v ms j).isDoc = true := by
  unfold StreamVisitor.printRenderingTime
  split
  · exact Json.isDoc_set _ _ _ hj
  · exact hj

theorem StreamVisitor.isDoc_accept {R : Type} [DoubleOps R] (v : StatisticVisitor)
    (g : Geometry R) (j j' : Json R) (hj : j.isDoc = true)
    (h : StreamVisitor.accept v g j = some j') : j'.isDoc = true := by
  cases g with
  | list e cs =>
    simp only [StreamVisitor.accept, StreamVisitor.visit_GeometryList, Option.some.injEq] at h
    exact h ▸ hj
  | polygon2d p =>
    simp only [StreamVisitor.accept, StreamVisitor.visit_Polygon2d, Option.some.injEq] at h
    subst h
    split
    · exact Json.isDoc_set _ _ _ hj
    · exact hj
  | polyset p =>
    simp only [StreamVisitor.accept, StreamVisitor.visit_PolySet] at h
    split at h
    · split at h
      · simp only [Option.some.injEq] at h
        subst h
        exact Json.isDoc_set _ _ _ hj
      · exact absurd h (by simp)
    · simp only [Option.some.injEq] at h
      exact h ▸ hj
  | nef n =>
    simp only [StreamVisitor.accept, StreamVisitor.visit_CGAL_Nef_polyhedron,
      Option.some.injEq] at h
    subst h
    split
    · exact Json.isDoc_set _ _ _ hj
    · exact hj

theorem StreamVisitor.find_printCacheStatistic_other {R : Type} (v : StatisticVisitor) (env : Env)
    (j : Json R) (k : String) (hk : k ≠ "cache") :
    (StreamVisitor.printCacheStatistic v env j).find k = j.find k := by
  unfold StreamVisitor.printCacheStatistic
  split
  · exact Json.find_set_other _ _ _ _ hk
  · rfl

theorem StreamVisitor.find_printRenderingTime_other {R : Type} (v : StatisticVisitor) (ms : Int)
    (j : Json R) (k : String) (hk : k ≠ "time") :
    (StreamVisitor.printRenderingTime v ms j).find k = j.find k := by
  unfold StreamVisitor.printRenderingTime
  split
  · exact Json.find_set_other _ _ _ _ hk
  · rfl

theorem StreamVisitor.find_printCamera_other {R : Type} (v : StatisticVisitor) (camera : Camera R)
    (j : Json R) (k : String) (hk : k ≠ "camera") :
    (StreamVisitor.printCamera v camera j).find k = j.find k := by
  unfold StreamVisitor.printCamera
  split
  · exact Json.find_set_other _ _ _ _ hk
  · rfl

theorem StreamVisitor.find_accept_other {R : Type} [DoubleOps R] (v : StatisticVisitor)
    (g : Geometry R) (j j' : Json R) (k : String) (hk : k ≠ "geometry")
    (h : StreamVisitor.accept v g j = some j') : j'.find k = j.find k := by
  cases g with
  | list e cs =>
    simp only [StreamVisitor.accept, StreamVisitor.visit_GeometryList, Option.some.injEq] at h
    rw [h]
  | polygon2d p =>
    simp only [StreamVisitor.accept, StreamVisitor.visit_Polygon2d, Option.some.injEq] at h
    subst h
    split
    · exact Json.find_set_other _ _ _ _ hk
    · rfl
  | polyset p =>
    simp only [StreamVisitor.accept, StreamVisitor.visit_PolySet] at h
    split at h
    · split at h
      · simp only [Option.some.injEq] at h
        subst h
        exact Json.find_set_other _ _ _ _ hk
      · exact absurd h (by simp)
    · simp only [Option.some.injEq] at h
      rw [h]
  | nef n =>
    simp only [StreamVisitor.accept, StreamVisitor.visit_CGAL_Nef_polyhedron,
      Option.some.injEq] at h
    subst h
    split
    · exact Json.find_set_other _ _ _ _ hk
    · rfl

/-- The first two steps of the stream renderer leave a document. -/
theorem StreamVisitor.isDoc_cache_time {R : Type} (v : StatisticVisitor) (env : Env) (ms : Int) :
    (StreamVisitor.printRenderingTime v ms
      (StreamVisitor.printCacheStatistic v env (Json.null : Json R))).isDoc = true :=
  StreamVisitor.isDoc_printRenderingTime _ _ _
    (StreamVisitor.isDoc_printCacheStatistic _ _ _ rfl)

theorem StreamVisitor.isDoc_beforeCamera {R : Type} [DoubleOps R] (env : Env) (ms : Int)
    (geom : Option (Geometry R)) (options : List String) (j : Json R)
    (h : StreamVisitor.beforeCamera env ms geom options = some j) : j.isDoc = true := by
  unfold StreamVisitor.beforeCamera at h
  cases geom with
  | none =>
    simp only [Option.some.injEq] at h
    exact h ▸ StreamVisitor.isDoc_cache_time _ _ _
  | some g =>
    simp only at h
    split at h
    · exact StreamVisitor.isDoc_accept _ _ _ _ (StreamVisitor.isDoc_cache_time _ _ _) h
    · simp only [Option.some.injEq] at h
      exact h ▸ StreamVisitor.isDoc_cache_time _ _ _

theorem StreamVisitor.find_beforeCamera_other {R : Type} [DoubleOps R] (env : Env) (ms : Int)
    (geom : Option (Geometry R)) (options : List String) (j : Json R) (k : String)
    (hk : k ≠ "geometry")
    (h : StreamVisitor.beforeCamera env ms geom options = some j) :
    j.find k = (StreamVisitor.printRenderingTime (StatisticVisitor.new options) ms
      (StreamVisitor.printCacheStatistic (StatisticVisitor.new options) env .null)).find k := by
  unfold StreamVisitor.beforeCamera at h
  cases geom with
  | none =>
    simp only [Option.some.injEq] at h
    rw [← h]
  | some g =>
    simp only at h
    split at h
    · exact StreamVisitor.find_accept_other _ _ _ _ _ hk h
    · simp only [Option.some.injEq] at h
      rw [← h]

/-- In stream mode `printAll` hands to `finish()` the document of the first three
steps extended by the camera step, unless an assertion failed. -/
theorem printAll_stream {R : Type} [DoubleOps R] (env : Env) (ms : Int)
    (geom : Option (Geometry R)) (camera : Camera R) (options : List String)
    (filename : String) (hdest : filename ≠ "") :
    (printAll env ms geom camera options filename).document =
        (StreamVisitor.beforeCamera env ms geom options).map
          (StreamVisitor.printCamera (StatisticVisitor.new options) camera) ∧
    (printAll env ms geom camera options filename).aborted =
        (StreamVisitor.beforeCamera env ms geom options).isNone ∧
    (printAll env ms geom camera options filename).log = [] ∧
    (printAll env ms geom camera options filename).thrown = false := by
  unfold printAll StreamVisitor.beforeCamera
  simp only [hdest, if_false]
  by_cases hd : filename = "-"
  · simp only [hd, if_true, Visitor.printCacheStatistic, Visitor.printRenderingTime]
    cases geom with
    | none => simp [Visitor.printCamera, Visitor.finish]
    | some g =>
      cases hE : g.isEmpty
      · cases hA : StreamVisitor.accept (StatisticVisitor.new options) g
          (StreamVisitor.printRenderingTime (StatisticVisitor.new options) ms
            (StreamVisitor.printCacheStatistic (StatisticVisitor.new options) env .null)) <;>
          simp [hE, Visitor.accept, hA, Visitor.printCamera, Visitor.finish, Visitor.abort,
            Visitor.sent]
      · simp [hE, Visitor.printCamera, Visitor.finish]
  · simp only [hd, if_false, Visitor.printCacheStatistic, Visitor.printRenderingTime]
    cases geom with
    | none => simp [Visitor.printCamera, Visitor.finish]
    | some g =>
      cases hE : g.isEmpty
      · cases hA : StreamVisitor.accept (StatisticVisitor.new options) g
          (StreamVisitor.printRenderingTime (StatisticVisitor.new options) ms
            (StreamVisitor.printCacheStatistic (StatisticVisitor.new options) env .null)) <;>
          simp [hE, Visitor.accept, hA, Visitor.printCamera, Visitor.finish, Visitor.abort,
            Visitor.sent]
      · simp [hE, Visitor.printCamera, Visitor.finish]

/-! ## The category filter -/

/-- C1. For every requested-category list `options` and every name `x`,
`is_enabled(x)` is true exactly when `options` contains the string `all` or a
string equal to `x`; in particular a list containing `all` (anywhere) enables
every name, recognised or not. -/
theorem is_enabled_iff_all_or_exact (options : List String) (x : String) :
    ((StatisticVisitor.new options).is_enabled x = true ↔ ("all" ∈ options ∨ x ∈ options)) ∧
    (∀ (before after : List String) (y : String),
      (StatisticVisitor.new (before ++ "all" :: after)).is_enabled y = true) := by
  constructor
  · exact is_enabled_new options x
  · intro before after y
    rw [is_enabled_new]
    left
    simp

/-! ## The time section -/

theorem StreamVisitor.printRenderingTime_eq {R : Type} (v : StatisticVisitor) (ms : Int)
    (j : Json R) :
    StreamVisitor.printRenderingTime v ms j =
      if v.is_enabled TIME then j.set "time" (StreamVisitor.timeJson ms) else j := rfl

/-- The members of `timeJson`. -/
theorem StreamVisitor.timeJson_find {R : Type} (ms : Int) :
    (StreamVisitor.timeJson ms : Json R).find "time" = some (.string
      (formatTime (((ms.tdiv 1000).tdiv 60).tdiv 60) (((ms.tdiv 1000).tdiv 60).tmod 60)
        ((ms.tdiv 1000).tmod 60) (ms.tmod 1000))) ∧
    (StreamVisitor.timeJson ms : Json R).find "total" = some (.number_integer ms) ∧
    (StreamVisitor.timeJson ms : Json R).find "milliseconds" =
      some (.number_integer (ms.tmod 1000)) ∧
    (StreamVisitor.timeJson ms : Json R).find "seconds" =
      some (.number_integer ((ms.tdiv 1000).tmod 60)) ∧
    (StreamVisitor.timeJson ms : Json R).find "minutes" =
      some (.number_integer (((ms.tdiv 1000).tdiv 60).tmod 60)) ∧
    (StreamVisitor.timeJson ms : Json R).find "hours" =
      some (.number_integer (((ms.tdiv 1000).tdiv 60).tdiv 60)) := by
  refine ⟨?_, ?_, ?_, ?_, ?_, ?_⟩ <;>
    simp [StreamVisitor.timeJson, Json.set, Json.find, Json.insertKey, List.lookup]

/-- In stream mode with `time` enabled, a run that reaches `finish()` hands over
a document whose `time` member is `timeJson`. -/
theorem printAll_time_section {R : Type} [DoubleOps R] (env : Env) (T : Int)
    (geom : Option (Geometry R)) (camera : Camera R) (options : List String)
    (filename : String) (hdest : filename ≠ "")
    (hen : (StatisticVisitor.new options).is_enabled TIME = true)
    (hrun : (printAll env T geom camera options filename).aborted = false) :
    ∃ d, (printAll env T geom camera options filename).document = some d ∧
      d.find "time" = some (StreamVisitor.timeJson T) := by
  obtain ⟨hdoc, hab, -, -⟩ := printAll_stream env T geom camera options filename hdest
  rw [hab] at hrun
  cases hb : StreamVisitor.beforeCamera env T geom options with
  | none => simp [hb] at hrun
  | some j =>
    refine ⟨_, by rw [hdoc, hb]; rfl, ?_⟩
    rw [StreamVisitor.find_printCamera_other _ _ _ _ (by decide),
      StreamVisitor.find_beforeCamera_other env T geom options j "time" (by decide) hb,
      StreamVisitor.printRenderingTime_eq, hen]
    exact Json.find_set_self _ _ _ (StreamVisitor.isDoc_printCacheStatistic _ _ _ rfl)

/-- Truncating and flooring division agree on a non-negative duration. -/
theorem tdiv_chain_of_nonneg (T : Int) (hT : 0 ≤ T) :
    ((T.tdiv 1000).tdiv 60).tdiv 60 = T / 1000 / 60 / 60 ∧
    ((T.tdiv 1000).tdiv 60).tmod 60 = T / 1000 / 60 % 60 ∧
    (T.tdiv 1000).tmod 60 = T / 1000 % 60 ∧
    T.tmod 1000 = T % 1000 := by
  have h1 : T.tdiv 1000 = T / 1000 := Int.tdiv_eq_ediv hT (by norm_num)
  have h2 : (T / 1000).tdiv 60 = T / 1000 / 60 := Int.tdiv_eq_ediv (by omega) (by norm_num)
  have h3 : (T / 1000 / 60).tdiv 60 = T / 1000 / 60 / 60 :=
    Int.tdiv_eq_ediv (by omega) (by norm_num)
  have m1 : T.tmod 1000 = T % 1000 := Int.tmod_eq_emod hT (by norm_num)
  have m2 : (T / 1000).tmod 60 = T / 1000 % 60 := Int.tmod_eq_emod (by omega) (by norm_num)
  have m3 : (T / 1000 / 60).tmod 60 = T / 1000 / 60 % 60 :=
    Int.tmod_eq_emod (by omega) (by norm_num)
  rw [h1, h2, h3, m1, m2, m3]
  exact ⟨rfl, rfl, rfl, rfl⟩

theorem fmtD_natCast (m : Nat) : fmtD (m : Int) = toString m := rfl

theorem fmtD0_natCast (w m : Nat) : fmtD0 w (m : Int) = padLeft w '0' (toString m) := by
  simp [fmtD0]

/-- The string both renderers format is the spec's composite string. -/
theorem formatTime_eq_spec (T : Int) (hT : 0 ≤ T) :
    formatTime (((T.tdiv 1000).tdiv 60).tdiv 60) (((T.tdiv 1000).tdiv 60).tmod 60)
      ((T.tdiv 1000).tmod 60) (T.tmod 1000) = specTimeString T.toNat := by
  obtain ⟨e1, e2, e3, e4⟩ := tdiv_chain_of_nonneg T hT
  obtain ⟨n, rfl⟩ := Int.eq_ofNat_of_zero_le hT
  have a1 : (n : Int) / 1000 / 60 / 60 = ((n / 3600000 : Nat) : Int) := by omega
  have a2 : (n : Int) / 1000 / 60 % 60 = ((n / 60000 % 60 : Nat) : Int) := by omega
  have a3 : (n : Int) / 1000 % 60 = ((n / 1000 % 60 : Nat) : Int) := by omega
  have a4 : (n : Int) % 1000 = ((n % 1000 : Nat) : Int) := by omega
  rw [e1, e2, e3, e4, a1, a2, a3, a4]
  simp only [formatTime, specTimeString, fmtD_natCast, fmtD0_natCast, Int.toNat_ofNat]

/-- In log mode `printAll` sends the cache events, the time line, the output of
the geometry step and the camera block, in this order, and writes no document;
a failed assertion cuts the log after the time line. -/
theorem printAll_log {R : Type} [DoubleOps R] (env : Env) (ms : Int)
    (geom : Option (Geometry R)) (camera : Camera R) (options : List String) :
    (printAll env ms geom camera options "").log =
        LogVisitor.printCacheStatistic (StatisticVisitor.new options)
          ++ LogVisitor.printRenderingTime (StatisticVisitor.new options) ms
          ++ (match LogVisitor.geometryStep geom options with
              | none => []
              | some out => out ++ LogVisitor.printCamera (StatisticVisitor.new options) camera) ∧
    (printAll env ms geom camera options "").aborted =
        (LogVisitor.geometryStep geom options).isNone ∧
    (printAll env ms geom camera options "").document = none ∧
    (printAll env ms geom camera options "").cout = none ∧
    (printAll env ms geom camera options "").file = none ∧
    (printAll env ms geom camera options "").opened = none ∧
    (printAll env ms geom camera options "").thrown = false := by
  unfold printAll LogVisitor.geometryStep
  simp only [if_true, Visitor.printCacheStatistic, Visitor.printRenderingTime]
  cases geom with
  | none => simp [Visitor.printCamera, Visitor.finish, LogVisitor.finish]
  | some g =>
    cases hE : g.isEmpty
    · cases hA : LogVisitor.accept (StatisticVisitor.new options) g <;>
        simp [hE, Visitor.accept, hA, Visitor.printCamera, Visitor.finish, Visitor.abort,
          Visitor.sent, Visitor.openedFile, LogVisitor.finish]
    · simp [hE, Visitor.printCamera, Visitor.finish, LogVisitor.finish]

theorem StreamVisitor.stream_accept_isSome {R : Type} [DoubleOps R] (v : StatisticVisitor)
    (g : Geometry R) (j : Json R) (h : g.dimensionAsserted = true) :
    (StreamVisitor.accept v g j).isSome = true := by
  cases g with
  | polyset p =>
    have hdim : p.getDimension = 3 := by simpa [Geometry.dimensionAsserted] using h
    simp only [StreamVisitor.accept, StreamVisitor.visit_PolySet, hdim, if_true]
    split <;> rfl
  | list e cs => rfl
  | polygon2d p => rfl
  | nef n => rfl

theorem LogVisitor.log_accept_isSome {R : Type} [DoubleOps R] (v : StatisticVisitor)
    (g : Geometry R) (h : g.dimensionAsserted = true) :
    (LogVisitor.accept v g).isSome = true := by
  cases g with
  | polyset p =>
    have hdim : p.getDimension = 3 := by simpa [Geometry.dimensionAsserted] using h
    simp [LogVisitor.accept, LogVisitor.visit_PolySet, hdim]
  | list e cs => rfl
  | polygon2d p => rfl
  | nef n => rfl

/-- A run on a geometry that meets the asserted condition reaches `finish()`,
whatever the destination. -/
theorem printAll_not_aborted {R : Type} [DoubleOps R] (env : Env) (ms : Int)
    (geom : Option (Geometry R)) (camera : Camera R) (options : List String)
    (filename : String) (hassert : ∀ g, geom = some g → g.dimensionAsserted = true) :
    (printAll env ms geom camera options filename).aborted = false := by
  by_cases hdest : filename = ""
  · subst hdest
    rw [(printAll_log env ms geom camera options).2.1]
    unfold LogVisitor.geometryStep
    cases geom with
    | none => rfl
    | some g =>
      simp only
      split
      · rw [Option.isNone_eq_false_iff]
        exact LogVisitor.log_accept_isSome _ g (hassert g rfl)
      · rfl
  · rw [(printAll_stream env ms geom camera options filename hdest).2.1]
    unfold StreamVisitor.beforeCamera
    cases geom with
    | none => rfl
    | some g =>
      simp only
      split
      · rw [Option.isNone_eq_false_iff]
        exact StreamVisitor.stream_accept_isSome _ g _ (hassert g rfl)
      · rfl

/-- C3. For every non-negative duration `T` in milliseconds, the `time` section
the Structured Renderer writes has `hours = T/1000/60/60`,
`minutes = T/1000/60 % 60`, `seconds = T/1000 % 60`, `milliseconds = T % 1000`
(integer division), these recompose to `T` exactly, and `total` is `T`. The
section exists in stream mode with `time` enabled, on every geometry that meets
the condition asserted by the code. -/
theorem time_fields_recompose {R : Type} [DoubleOps R] (env : Env) (T : Int) (hT : 0 ≤ T)
    (geom : Option (Geometry R)) (camera : Camera R) (options : List String)
    (filename : String) (hdest : filename ≠ "")
    (hen : (StatisticVisitor.new options).is_enabled TIME = true)
    (hassert : ∀ g, geom = some g → g.dimensionAsserted = true) :
    ∃ d t, (printAll env T geom camera options filename).document = some d ∧
      d.find "time" = some t ∧
      t.find "hours" = some (.number_integer (T / 1000 / 60 / 60)) ∧
      t.find "minutes" = some (.number_integer (T / 1000 / 60 % 60)) ∧
      t.find "seconds" = some (.number_integer (T / 1000 % 60)) ∧
      t.find "milliseconds" = some (.number_integer (T % 1000)) ∧
      t.find "total" = some (.number_integer T) ∧
      (T / 1000 / 60 / 60) * 3600000 + (T / 1000 / 60 % 60) * 60000
        + (T / 1000 % 60) * 1000 + T % 1000 = T := by
  obtain ⟨d, hd, ht⟩ := printAll_time_section env T geom camera options filename hdest hen
    (printAll_not_aborted env T geom camera options filename hassert)
  obtain ⟨-, f2, f3, f4, f5, f6⟩ := @StreamVisitor.timeJson_find R T
  obtain ⟨e1, e2, e3, e4⟩ := tdiv_chain_of_nonneg T hT
  rw [e1] at f6
  rw [e2] at f5
  rw [e3] at f4
  rw [e4] at f3
  exact ⟨d, _, hd, ht, f6, f5, f4, f3, f2, by omega⟩

/-- C4. For every non-negative duration `T` in milliseconds the Log Renderer's
line is `Total rendering time: ` followed by the composite string
`H:MM:SS.mmm` of the spec (`H = T/3600000` unpadded, `MM = (T/60000) mod 60`
padded to 2, `SS = (T/1000) mod 60` padded to 2, `mmm = T mod 1000` padded to 3),
the Structured Renderer's `time.time` is that same string, and the string is the
zero-padded rendering of the decomposed `hours`, `minutes`, `seconds`,
`milliseconds` fields of the `time` section. -/
theorem time_string_is_spec_string {R : Type} [DoubleOps R] (env : Env) (T : Int) (hT : 0 ≤ T)
    (geom : Option (Geometry R)) (camera : Camera R) (options : List String) :
    (∃ rest, (printAll env T geom camera options "").log =
      [ LogEvent.GeometryCache_print, LogEvent.CGALCache_print,
        LogEvent.LOG .None ("Total rendering time: " ++ specTimeString T.toNat) ] ++ rest) ∧
    (∀ filename : String, filename ≠ "" →
      (StatisticVisitor.new options).is_enabled TIME = true →
      (∀ g, geom = some g → g.dimensionAsserted = true) →
      ∃ d t hours minutes seconds milliseconds,
        (printAll env T geom camera options filename).document = some d ∧
        d.find "time" = some t ∧
        t.find "time" = some (.string (specTimeString T.toNat)) ∧
        t.find "hours" = some (.number_integer hours) ∧
        t.find "minutes" = some (.number_integer minutes) ∧
        t.find "seconds" = some (.number_integer seconds) ∧
        t.find "milliseconds" = some (.number_integer milliseconds) ∧
        specTimeString T.toNat =
          specRenderFields hours.toNat minutes.toNat seconds.toNat milliseconds.toNat) := by
  constructor
  · obtain ⟨hlog, -⟩ := printAll_log env T geom camera options
    rw [hlog, LogVisitor.printCacheStatistic, LogVisitor.printRenderingTime,
      formatTime_eq_spec T hT]
    exact ⟨_, rfl⟩
  · intro filename hdest hen hassert
    obtain ⟨d, hd, ht⟩ := printAll_time_section env T geom camera options filename hdest hen
      (printAll_not_aborted env T geom camera options filename hassert)
    obtain ⟨f1, -, f3, f4, f5, f6⟩ := @StreamVisitor.timeJson_find R T
    rw [formatTime_eq_spec T hT] at f1
    refine ⟨d, _, _, _, _, _, hd, ht, f1, f6, f5, f4, f3, ?_⟩
    obtain ⟨e1, e2, e3, e4⟩ := tdiv_chain_of_nonneg T hT
    obtain ⟨n, rfl⟩ := Int.eq_ofNat_of_zero_le hT
    have a1 : ((n : Int) / 1000 / 60 / 60).toNat = n / 3600000 := by omega
    have a2 : ((n : Int) / 1000 / 60 % 60).toNat = n / 60000 % 60 := by omega
    have a3 : ((n : Int) / 1000 % 60).toNat = n / 1000 % 60 := by omega
    have a4 : ((n : Int) % 1000).toNat = n % 1000 := by omega
    rw [e1, e2, e3, e4, a1, a2, a3, a4]
    rfl

/-! ## The log renderer -/

/-- A text that starts with `p` differs from every `t` that does not. -/
theorem append_ne_of_not_starts (p x t : String)
    (h : t.data.take p.data.length ≠ p.data) : p ++ x ≠ t := by
  intro e
  apply h
  rw [← e, String.data_append]
  simp

theorem is_enabled_false_of_not_mem (options : List String) (name : String)
    (hall : "all" ∉ options) (hname : name ∉ options) :
    (StatisticVisitor.new options).is_enabled name = false := by
  rw [Bool.eq_false_iff, Ne, is_enabled_new]
  tauto

/-- With `bounding_box` disabled, no geometry visit of the log renderer sends a
`Bounding box:` or a `Camera:` line. -/
theorem LogVisitor.accept_no_bounding_box {R : Type} [DoubleOps R] (v : StatisticVisitor)
    (g : Geometry R) (out : List LogEvent)
    (hbb : v.is_enabled BOUNDING_BOX = false) (h : LogVisitor.accept v g = some out) :
    ∀ group text, LogEvent.LOG group text ∈ out →
      text ≠ "Bounding box:" ∧ text ≠ "Camera:" := by
  intro group text hmem
  cases g with
  | list e cs =>
    simp only [LogVisitor.accept, LogVisitor.visit_GeometryList, Option.some.injEq] at h
    subst h
    simp only [logNone, List.mem_cons, LogEvent.LOG.injEq, List.mem_nil_iff, or_false] at hmem
    rcases hmem with ⟨-, rfl⟩ | ⟨-, rfl⟩
    · decide
    · exact ⟨append_ne_of_not_starts _ _ _ (by decide), append_ne_of_not_starts _ _ _ (by decide)⟩
  | polygon2d p =>
    simp only [LogVisitor.accept, LogVisitor.visit_Polygon2d, Option.some.injEq] at h
    subst h
    simp only [hbb, logNone, List.mem_append, List.mem_cons, LogEvent.LOG.injEq,
      List.mem_nil_iff, or_false, Bool.false_eq_true, if_false] at hmem
    rcases hmem with (⟨-, rfl⟩ | ⟨-, rfl⟩) | hmem
    · decide
    · exact ⟨append_ne_of_not_starts _ _ _ (by decide), append_ne_of_not_starts _ _ _ (by decide)⟩
    · split at hmem
      · simp only [List.mem_cons, LogEvent.LOG.injEq, List.mem_nil_iff, or_false] at hmem
        rcases hmem with ⟨-, rfl⟩ | ⟨-, rfl⟩
        · decide
        · exact ⟨append_ne_of_not_starts _ _ _ (by decide),
            append_ne_of_not_starts _ _ _ (by decide)⟩
      · simp at hmem
  | polyset p =>
    simp only [LogVisitor.accept, LogVisitor.visit_PolySet] at h
    split at h
    · simp only [Option.some.injEq] at h
      subst h
      simp only [LogVisitor.printBoundingBox3, hbb, logNone, List.mem_append, List.mem_cons,
        LogEvent.LOG.injEq, List.mem_nil_iff, or_false, Bool.false_eq_true, if_false] at hmem
      rcases hmem with ⟨-, rfl⟩ | ⟨-, rfl⟩
      · decide
      · exact ⟨append_ne_of_not_starts _ _ _ (by decide),
          append_ne_of_not_starts _ _ _ (by decide)⟩
    · exact absurd h (by simp)
  | nef n =>
    simp only [LogVisitor.accept, LogVisitor.visit_CGAL_Nef_polyhedron, Option.some.injEq] at h
    subst h
    split at hmem
    · simp only [LogVisitor.printBoundingBox3, hbb, logNone, List.mem_append, List.mem_cons,
        LogEvent.LOG.injEq, List.mem_nil_iff, or_false, Bool.false_eq_true, if_false] at hmem
      rcases hmem with (hmem | hmem)
      · rcases hmem with h | h | h | h | h | h | h | h
        all_goals obtain ⟨-, rfl⟩ := h
        · decide
        all_goals
          exact ⟨append_ne_of_not_starts _ _ _ (by decide),
            append_ne_of_not_starts _ _ _ (by decide)⟩
      · split at hmem
        · simp only [List.mem_cons, LogEvent.LOG.injEq, List.mem_nil_iff, or_false] at hmem
          obtain ⟨-, rfl⟩ := hmem
          decide
        · simp at hmem
    · simp at hmem

/-- C5. In log mode, for every geometry, camera and requested-category list (the
empty one included), `printAll` sends the cache block and then the
`Total rendering time:` line; and when the list contains none of `all`,
`bounding_box`, `camera`, the log has no `Bounding box:` line and no `Camera:`
line. -/
theorem log_mode_cache_and_time_unconditional {R : Type} [DoubleOps R] (env : Env) (ms : Int)
    (geom : Option (Geometry R)) (camera : Camera R) (options : List String) :
    (∃ timeString rest, (printAll env ms geom camera options "").log =
      [ LogEvent.GeometryCache_print, LogEvent.CGALCache_print,
        LogEvent.LOG .None ("Total rendering time: " ++ timeString) ] ++ rest) ∧
    ("all" ∉ options → "bounding_box" ∉ options → "camera" ∉ options →
      ∀ group text, LogEvent.LOG group text ∈ (printAll env ms geom camera options "").log →
        text ≠ "Bounding box:" ∧ text ≠ "Camera:") := by
  obtain ⟨hlog, -⟩ := printAll_log env ms geom camera options
  constructor
  · rw [hlog, LogVisitor.printCacheStatistic, LogVisitor.printRenderingTime]
    exact ⟨_, _, rfl⟩
  · intro hall hbb hcam group text hmem
    have ebb := is_enabled_false_of_not_mem options BOUNDING_BOX hall hbb
    have ecam := is_enabled_false_of_not_mem options CAMERA hall hcam
    rw [hlog, LogVisitor.printCacheStatistic, LogVisitor.printRenderingTime] at hmem
    simp only [logNone, List.mem_append, List.mem_cons, LogEvent.LOG.injEq, List.mem_nil_iff,
      or_false, reduceCtorEq, false_or] at hmem
    rcases hmem with ⟨-, rfl⟩ | hmem
    · exact ⟨append_ne_of_not_starts _ _ _ (by decide), append_ne_of_not_starts _ _ _ (by decide)⟩
    · cases hstep : LogVisitor.geometryStep geom options with
      | none => simp [hstep] at hmem
      | some out =>
        simp only [hstep, LogVisitor.printCamera, ecam, List.append_nil, Bool.false_eq_true,
          if_false] at hmem
        unfold LogVisitor.geometryStep at hstep
        cases geom with
        | none =>
          simp only [Option.some.injEq] at hstep
          subst hstep
          simp at hmem
        | some g =>
          simp only at hstep
          split at hstep
          · exact LogVisitor.accept_no_bounding_box _ g out ebb hstep group text hmem
          · simp only [Option.some.injEq] at hstep
            subst hstep
            simp at hmem

/-! ## Absent and empty geometry -/

theorem LogVisitor.geometryStep_of_empty {R : Type} [DoubleOps R] (geom : Option (Geometry R))
    (options : List String)
    (hempty : geom = none ∨ ∃ g, geom = some g ∧ g.isEmpty = true) :
    LogVisitor.geometryStep geom options = some [] := by
  rcases hempty with rfl | ⟨g, rfl, hg⟩
  · rfl
  · simp [LogVisitor.geometryStep, hg]

theorem StreamVisitor.beforeCamera_of_empty {R : Type} [DoubleOps R] (env : Env) (ms : Int)
    (geom : Option (Geometry R)) (options : List String)
    (hempty : geom = none ∨ ∃ g, geom = some g ∧ g.isEmpty = true) :
    StreamVisitor.beforeCamera env ms geom options =
      some (StreamVisitor.printRenderingTime (StatisticVisitor.new options) ms
        (StreamVisitor.printCacheStatistic (StatisticVisitor.new options) env .null)) := by
  rcases hempty with rfl | ⟨g, rfl, hg⟩
  · rfl
  · simp [StreamVisitor.beforeCamera, hg]

/-- Neither the cache step nor the time step creates a `geometry` member. -/
theorem StreamVisitor.find_geometry_cache_time {R : Type} (v : StatisticVisitor) (env : Env)
    (ms : Int) :
    (StreamVisitor.printRenderingTime v ms
      (StreamVisitor.printCacheStatistic v env (Json.null : Json R))).find "geometry" = none := by
  rw [StreamVisitor.find_printRenderingTime_other _ _ _ _ (by decide),
    StreamVisitor.find_printCacheStatistic_other _ _ _ _ (by decide)]
  rfl

/-- C6. For every requested-category list, camera and destination, when the
geometry passed to `printAll` is absent or reports itself empty, no renderer
produces a geometry section: the log consists of the cache block, the time line
and the camera block only, with none of the `Top level object` headers, and the
document of the Structured Renderer has no `geometry` key. -/
theorem empty_geometry_no_section {R : Type} [DoubleOps R] (env : Env) (ms : Int)
    (geom : Option (Geometry R)) (camera : Camera R) (options : List String)
    (hempty : geom = none ∨ ∃ g, geom = some g ∧ g.isEmpty = true) :
    ((printAll env ms geom camera options "").log =
        LogVisitor.printCacheStatistic (StatisticVisitor.new options)
          ++ LogVisitor.printRenderingTime (StatisticVisitor.new options) ms
          ++ LogVisitor.printCamera (StatisticVisitor.new options) camera) ∧
    (∀ group text, LogEvent.LOG group text ∈ (printAll env ms geom camera options "").log →
        text ≠ "Top level object is a list of objects:" ∧
        text ≠ "Top level object is a 2D object:" ∧
        text ≠ "Top level object is a 3D object:") ∧
    (∀ filename : String, filename ≠ "" →
      ∃ d, (printAll env ms geom camera options filename).document = some d ∧
        d.find "geometry" = none ∧ d.contains "geometry" = false) := by
  obtain ⟨hlog, -⟩ := printAll_log env ms geom camera options
  rw [LogVisitor.geometryStep_of_empty geom options hempty] at hlog
  simp only [List.nil_append] at hlog
  refine ⟨hlog, ?_, ?_⟩
  · intro group text hmem
    rw [hlog, LogVisitor.printCacheStatistic, LogVisitor.printRenderingTime,
      LogVisitor.printCamera] at hmem
    simp only [logNone, List.mem_append, List.mem_cons, LogEvent.LOG.injEq, List.mem_nil_iff,
      or_false, reduceCtorEq, false_or] at hmem
    rcases hmem with ⟨-, rfl⟩ | hmem
    · exact ⟨append_ne_of_not_starts _ _ _ (by decide),
        append_ne_of_not_starts _ _ _ (by decide), append_ne_of_not_starts _ _ _ (by decide)⟩
    · split at hmem
      · simp only [List.mem_cons, LogEvent.LOG.injEq, List.mem_nil_iff, or_false,
          String.append_assoc] at hmem
        rcases hmem with h | h | h | h | h
        all_goals obtain ⟨-, rfl⟩ := h
        · decide
        all_goals
          exact ⟨append_ne_of_not_starts _ _ _ (by decide),
            append_ne_of_not_starts _ _ _ (by decide),
            append_ne_of_not_starts _ _ _ (by decide)⟩
      · simp at hmem
  · intro filename hdest
    obtain ⟨hdoc, -⟩ := printAll_stream env ms geom camera options filename hdest
    rw [StreamVisitor.beforeCamera_of_empty env ms geom options hempty] at hdoc
    have hfind : (StreamVisitor.printCamera (StatisticVisitor.new options) camera
        (StreamVisitor.printRenderingTime (StatisticVisitor.new options) ms
          (StreamVisitor.printCacheStatistic (StatisticVisitor.new options) env
            (Json.null : Json R)))).find "geometry" = none := by
      rw [StreamVisitor.find_printCamera_other _ _ _ _ (by decide),
        StreamVisitor.find_geometry_cache_time]
    exact ⟨_, hdoc, hfind, by rw [Json.contains, hfind]; rfl⟩

/-! ## The geometry section of the document -/

theorem StreamVisitor.accept_of_disabled {R : Type} [DoubleOps R] (v : StatisticVisitor)
    (g : Geometry R) (j : Json R) (hgeo : v.is_enabled GEOMETRY = false) :
    StreamVisitor.accept v g j = some j := by
  cases g <;>
    simp [StreamVisitor.accept, StreamVisitor.visit_GeometryList, StreamVisitor.visit_Polygon2d,
      StreamVisitor.visit_PolySet, StreamVisitor.visit_CGAL_Nef_polyhedron, hgeo]

theorem StreamVisitor.accept_of_enabled {R : Type} [DoubleOps R] (v : StatisticVisitor)
    (g : Geometry R) (j : Json R) (hgeo : v.is_enabled GEOMETRY = true)
    (hdim : ∀ ps, g = .polyset ps → ps.getDimension = 3) :
    StreamVisitor.accept v g j =
      some (match StreamVisitor.geometryJson v g with
            | none => j
            | some section_ => j.set "geometry" section_) := by
  cases g with
  | list e cs => rfl
  | polygon2d p =>
    simp only [StreamVisitor.accept, StreamVisitor.visit_Polygon2d, hgeo, if_true,
      StreamVisitor.geometryJson]
    rfl
  | polyset p =>
    simp only [StreamVisitor.accept, StreamVisitor.visit_PolySet, hgeo, if_true,
      hdim p rfl, StreamVisitor.geometryJson]
    rfl
  | nef n =>
    simp only [StreamVisitor.accept, StreamVisitor.visit_CGAL_Nef_polyhedron, hgeo, if_true,
      StreamVisitor.geometryJson]
    rfl

/-- In stream mode, for a non-empty geometry with a section of its own and
`geometry` enabled, the run reaches `finish()` and the document carries that
section under `geometry`. -/
theorem printAll_geometry_section {R : Type} [DoubleOps R] (env : Env) (ms : Int)
    (g : Geometry R) (camera : Camera R) (options : List String) (filename : String)
    (section_ : Json R) (hdest : filename ≠ "") (hne : g.isEmpty = false)
    (hgeo : (StatisticVisitor.new options).is_enabled GEOMETRY = true)
    (hdim : ∀ ps, g = .polyset ps → ps.getDimension = 3)
    (hsec : StreamVisitor.geometryJson (StatisticVisitor.new options) g = some section_) :
    (printAll env ms (some g) camera options filename).aborted = false ∧
    ∃ d, (printAll env ms (some g) camera options filename).document = some d ∧
      d.find "geometry" = some section_ := by
  obtain ⟨hdoc, hab, -, -⟩ := printAll_stream env ms (some g) camera options filename hdest
  have hb : StreamVisitor.beforeCamera env ms (some g) options =
      some ((StreamVisitor.printRenderingTime (StatisticVisitor.new options) ms
        (StreamVisitor.printCacheStatistic (StatisticVisitor.new options) env .null)).set
          "geometry" section_) := by
    simp only [StreamVisitor.beforeCamera, hne, Bool.not_false, if_true]
    rw [StreamVisitor.accept_of_enabled _ _ _ hgeo hdim, hsec]
  rw [hb] at hdoc hab
  refine ⟨by rw [hab]; rfl, _, hdoc, ?_⟩
  rw [StreamVisitor.find_printCamera_other _ _ _ _ (by decide)]
  exact Json.find_set_self _ _ _ (StreamVisitor.isDoc_cache_time _ _ _)

/-- The members of the 3D bounding-box object. -/
theorem getBoundingBox3_find {R : Type} [DoubleOps R] (bb : BoundingBox R) :
    (getBoundingBox3 bb).find "min" = some (Json.doubles [bb.min.x, bb.min.y, bb.min.z]) ∧
    (getBoundingBox3 bb).find "max" = some (Json.doubles [bb.max.x, bb.max.y, bb.max.z]) ∧
    (getBoundingBox3 bb).find "size" = some (Json.doubles
      [DoubleOps.sub bb.max.x bb.min.x, DoubleOps.sub bb.max.y bb.min.y,
        DoubleOps.sub bb.max.z bb.min.z]) := by
  refine ⟨?_, ?_, ?_⟩ <;>
    simp [getBoundingBox3, Json.set, Json.find, Json.insertKey, List.lookup]

/-- The members of the 2D bounding-box object. -/
theorem getBoundingBox2_find {R : Type} [DoubleOps R] (bb : BoundingBox R) :
    (getBoundingBox2 bb).find "min" = some (Json.doubles [bb.min.x, bb.min.y]) ∧
    (getBoundingBox2 bb).find "max" = some (Json.doubles [bb.max.x, bb.max.y]) ∧
    (getBoundingBox2 bb).find "size" = some (Json.doubles
      [DoubleOps.sub bb.max.x bb.min.x, DoubleOps.sub bb.max.y bb.min.y]) := by
  refine ⟨?_, ?_, ?_⟩ <;>
    simp [getBoundingBox2, Json.set, Json.find, Json.insertKey, List.lookup]

/-- The members of the section of a `PolySet`. -/
theorem StreamVisitor.geometryJson_PolySet_find {R : Type} [DoubleOps R]
    (v : StatisticVisitor) (ps : PolySet R) :
    (StreamVisitor.geometryJson_PolySet v ps).find "dimensions" = some (.number_integer 3) ∧
    (StreamVisitor.geometryJson_PolySet v ps).find "convex" = some (.boolean ps.is_convex) ∧
    (StreamVisitor.geometryJson_PolySet v ps).find "facets" =
      some (.number_integer ps.numFacets) ∧
    (StreamVisitor.geometryJson_PolySet v ps).find "bounding_box" =
      if v.is_enabled BOUNDING_BOX then some (getBoundingBox3 ps.getBoundingBox) else none := by
  cases hbb : v.is_enabled BOUNDING_BOX <;>
    simp [StreamVisitor.geometryJson_PolySet, hbb, Json.set, Json.find, Json.insertKey,
      List.lookup, Json.size_t]

/-- The members of the section of a `Polygon2d`. -/
theorem StreamVisitor.geometryJson_Polygon2d_find {R : Type} [DoubleOps R]
    (v : StatisticVisitor) (poly : Polygon2d R) :
    (StreamVisitor.geometryJson_Polygon2d v poly).find "dimensions" = some (.number_integer 2) ∧
    (StreamVisitor.geometryJson_Polygon2d v poly).find "convex" =
      some (.boolean poly.is_convex) ∧
    (StreamVisitor.geometryJson_Polygon2d v poly).find "contours" =
      some (.number_integer poly.outlines_size) ∧
    (StreamVisitor.geometryJson_Polygon2d v poly).find "bounding_box" =
      if v.is_enabled BOUNDING_BOX then some (getBoundingBox2 poly.getBoundingBox) else none := by
  cases hbb : v.is_enabled BOUNDING_BOX <;>
    simp [StreamVisitor.geometryJson_Polygon2d, hbb, Json.set, Json.find, Json.insertKey,
      List.lookup, Json.size_t]

/-- The members of the section of a `CGAL_Nef_polyhedron`. -/
theorem StreamVisitor.geometryJson_CGAL_Nef_polyhedron_find {R : Type} [DoubleOps R]
    (v : StatisticVisitor) (nef : CGAL_Nef_polyhedron R) :
    (StreamVisitor.geometryJson_CGAL_Nef_polyhedron v nef).find "dimensions" =
      some (.number_integer 3) ∧
    (StreamVisitor.geometryJson_CGAL_Nef_polyhedron v nef).find "simple" =
      some (.boolean nef.is_simple) ∧
    (StreamVisitor.geometryJson_CGAL_Nef_polyhedron v nef).find "vertices" =
      some (.number_integer nef.number_of_vertices) ∧
    (StreamVisitor.geometryJson_CGAL_Nef_polyhedron v nef).find "edges" =
      some (.number_integer nef.number_of_edges) ∧
    (StreamVisitor.geometryJson_CGAL_Nef_polyhedron v nef).find "facets" =
      some (.number_integer nef.number_of_facets) ∧
    (StreamVisitor.geometryJson_CGAL_Nef_polyhedron v nef).find "volumes" =
      some (.number_integer nef.number_of_volumes) ∧
    (StreamVisitor.geometryJson_CGAL_Nef_polyhedron v nef).find "bounding_box" =
      if v.is_enabled BOUNDING_BOX then some (getBoundingBox3 nef.getBoundingBox) else none := by
  cases hbb : v.is_enabled BOUNDING_BOX <;>
    simp [StreamVisitor.geometryJson_CGAL_Nef_polyhedron, hbb, Json.set, Json.find,
      Json.insertKey, List.lookup, Json.size_t]

/-- Where the document goes: with destination `-` it reaches `std::cout`; with a
file name it reaches that file when the file could be opened, and nothing
otherwise. -/
theorem printAll_sinks {R : Type} [DoubleOps R] (env : Env) (ms : Int)
    (geom : Option (Geometry R)) (camera : Camera R) (options : List String)
    (filename : String) (hdest : filename ≠ "") :
    (filename = "-" →
      (printAll env ms geom camera options filename).cout =
          (printAll env ms geom camera options filename).document ∧
      (printAll env ms geom camera options filename).file = none ∧
      (printAll env ms geom camera options filename).opened = none) ∧
    (filename ≠ "-" →
      (printAll env ms geom camera options filename).cout = none ∧
      (printAll env ms geom camera options filename).file =
          (if env.canOpen filename then
            (printAll env ms geom camera options filename).document.map (fun d => (filename, d))
           else none) ∧
      (printAll env ms geom camera options filename).opened =
          (if env.canOpen filename then some filename else none)) := by
  unfold printAll
  simp only [hdest, if_false]
  constructor
  · intro hd
    simp only [hd, if_true, Visitor.printCacheStatistic, Visitor.printRenderingTime]
    cases geom with
    | none => simp [Visitor.printCamera, Visitor.finish]
    | some g =>
      cases hE : g.isEmpty
      · cases hA : StreamVisitor.accept (StatisticVisitor.new options) g
          (StreamVisitor.printRenderingTime (StatisticVisitor.new options) ms
            (StreamVisitor.printCacheStatistic (StatisticVisitor.new options) env .null)) <;>
          simp [hE, Visitor.accept, hA, Visitor.printCamera, Visitor.finish, Visitor.abort,
            Visitor.openedFile]
      · simp [hE, Visitor.printCamera, Visitor.finish]
  · intro hd
    simp only [hd, if_false, Visitor.printCacheStatistic, Visitor.printRenderingTime]
    cases hopen : env.canOpen filename <;>
    cases geom with
    | none => simp [Visitor.printCamera, Visitor.finish]
    | some g =>
      cases hE : g.isEmpty
      · cases hA : StreamVisitor.accept (StatisticVisitor.new options) g
          (StreamVisitor.printRenderingTime (StatisticVisitor.new options) ms
            (StreamVisitor.printCacheStatistic (StatisticVisitor.new options) env .null)) <;>
          simp [hE, Visitor.accept, hA, Visitor.printCamera, Visitor.finish, Visitor.abort,
            Visitor.openedFile]
      · simp [hE, Visitor.printCamera, Visitor.finish]

theorem StreamVisitor.find_printCacheStatistic_null {R : Type} (v : StatisticVisitor) (env : Env)
    (k : String) (hoff : k = "cache" → v.is_enabled CACHE = false) :
    (StreamVisitor.printCacheStatistic v env (Json.null : Json R)).find k = none := by
  by_cases hk : k = "cache"
  · simp [StreamVisitor.printCacheStatistic, hoff hk, Json.find]
  · rw [StreamVisitor.find_printCacheStatistic_other _ _ _ _ hk]
    rfl

/-- A top-level key of a document handed to `finish()` is one of the four
category keys, and its category is enabled. -/
theorem printAll_key_enabled {R : Type} [DoubleOps R] (env : Env) (ms : Int)
    (geom : Option (Geometry R)) (camera : Camera R) (options : List String)
    (filename : String) (d : Json R)
    (hd : (printAll env ms geom camera options filename).document = some d)
    (X : String) (hX : X ∈ ["geometry", "camera", "cache", "time"])
    (hkey : d.contains X = true) :
    (StatisticVisitor.new options).is_enabled X = true := by
  by_cases hdest : filename = ""
  · subst hdest
    obtain ⟨-, -, hdoc, -⟩ := printAll_log env ms geom camera options
    rw [hdoc] at hd
    exact absurd hd (by simp)
  obtain ⟨hdoc, -⟩ := printAll_stream env ms geom camera options filename hdest
  rw [hdoc] at hd
  cases hb : StreamVisitor.beforeCamera env ms geom options with
  | none => simp [hb] at hd
  | some j =>
    simp only [hb, Option.map_some', Option.some.injEq] at hd
    subst hd
    by_contra hoff
    rw [Bool.not_eq_true] at hoff
    have hnone : (StreamVisitor.printCamera (StatisticVisitor.new options) camera j).find X
        = none := by
      simp only [List.mem_cons, List.mem_nil_iff, or_false] at hX
      rcases hX with rfl | rfl | rfl | rfl
      · -- geometry
        rw [StreamVisitor.find_printCamera_other _ _ _ _ (by decide)]
        have hj : j = StreamVisitor.printRenderingTime (StatisticVisitor.new options) ms
            (StreamVisitor.printCacheStatistic (StatisticVisitor.new options) env .null) := by
          unfold StreamVisitor.beforeCamera at hb
          cases geom with
          | none => simpa using hb.symm
          | some g =>
            simp only at hb
            split at hb
            · rw [StreamVisitor.accept_of_disabled _ _ _ hoff] at hb
              simpa using hb.symm
            · simpa using hb.symm
        rw [hj]
        exact StreamVisitor.find_geometry_cache_time _ _ _
      · -- camera
        have hcam : StreamVisitor.printCamera (StatisticVisitor.new options) camera j = j := by
          simp only [StreamVisitor.printCamera]
          rw [if_neg]
          simpa [CAMERA] using hoff
        rw [hcam, StreamVisitor.find_beforeCamera_other env ms geom options j "camera"
          (by decide) hb, StreamVisitor.find_printRenderingTime_other _ _ _ _ (by decide),
          StreamVisitor.find_printCacheStatistic_other _ _ _ _ (by decide)]
        rfl
      · -- cache
        rw [StreamVisitor.find_printCamera_other _ _ _ _ (by decide),
          StreamVisitor.find_beforeCamera_other env ms geom options j "cache" (by decide) hb,
          StreamVisitor.find_printRenderingTime_other _ _ _ _ (by decide)]
        exact StreamVisitor.find_printCacheStatistic_null _ _ _ (fun _ => hoff)
      · -- time
        rw [StreamVisitor.find_printCamera_other _ _ _ _ (by decide),
          StreamVisitor.find_beforeCamera_other env ms geom options j "time" (by decide) hb,
          StreamVisitor.printRenderingTime_eq]
        rw [if_neg (by simpa [TIME] using hoff)]
        exact StreamVisitor.find_printCacheStatistic_null _ _ _ (fun h => absurd h (by decide))
    rw [Json.contains, hnone] at hkey
    exact absurd hkey (by simp)

/-! ## Solids and polygons in the document -/

/-- C7. For every non-empty Solid3D geometry (a `PolySet` of dimension 3) with
facet count `f` and bounding box `(min, max)`, and every requested-category list
that enables `geometry` and `bounding_box`, the document of the Structured
Renderer has `geometry.dimensions = 3`, `geometry.facets = f` and
`geometry.bounding_box` with the given `min` and `max` and
`size[i] = max[i] - min[i]` on each of the three axes; the 2D bounding box of a
non-empty Polygon2D obeys the same rule on its two axes; and with categories
exactly `geometry`, `bounding_box` and destination `-` the document that reaches
the standard output has no `camera` and no `cache` key. -/
theorem solid_geometry_section {R : Type} [DoubleOps R] (env : Env) (ms : Int)
    (camera : Camera R) (ps : PolySet R) (hne : ps.isEmpty = false)
    (hdim : ps.getDimension = 3) :
    (∀ (options : List String) (filename : String), filename ≠ "" →
      (StatisticVisitor.new options).is_enabled GEOMETRY = true →
      (StatisticVisitor.new options).is_enabled BOUNDING_BOX = true →
      ∃ d g bb,
        (printAll env ms (some (.polyset ps)) camera options filename).document = some d ∧
        d.find "geometry" = some g ∧
        g.find "dimensions" = some (.number_integer 3) ∧
        g.find "facets" = some (.number_integer ps.numFacets) ∧
        g.find "bounding_box" = some bb ∧
        bb.find "min" = some (.array [.number_float ps.getBoundingBox.min.x,
          .number_float ps.getBoundingBox.min.y, .number_float ps.getBoundingBox.min.z]) ∧
        bb.find "max" = some (.array [.number_float ps.getBoundingBox.max.x,
          .number_float ps.getBoundingBox.max.y, .number_float ps.getBoundingBox.max.z]) ∧
        bb.find "size" = some (.array
          [.number_float (DoubleOps.sub ps.getBoundingBox.max.x ps.getBoundingBox.min.x),
           .number_float (DoubleOps.sub ps.getBoundingBox.max.y ps.getBoundingBox.min.y),
           .number_float (DoubleOps.sub ps.getBoundingBox.max.z ps.getBoundingBox.min.z)])) ∧
    (∀ (options : List String) (filename : String) (poly : Polygon2d R), filename ≠ "" →
      poly.isEmpty = false →
      (StatisticVisitor.new options).is_enabled GEOMETRY = true →
      (StatisticVisitor.new options).is_enabled BOUNDING_BOX = true →
      ∃ d g bb,
        (printAll env ms (some (.polygon2d poly)) camera options filename).document = some d ∧
        d.find "geometry" = some g ∧
        g.find "bounding_box" = some bb ∧
        bb.find "min" = some (.array [.number_float poly.getBoundingBox.min.x,
          .number_float poly.getBoundingBox.min.y]) ∧
        bb.find "max" = some (.array [.number_float poly.getBoundingBox.max.x,
          .number_float poly.getBoundingBox.max.y]) ∧
        bb.find "size" = some (.array
          [.number_float (DoubleOps.sub poly.getBoundingBox.max.x poly.getBoundingBox.min.x),
           .number_float (DoubleOps.sub poly.getBoundingBox.max.y poly.getBoundingBox.min.y)])) ∧
    (∃ d, (printAll env ms (some (.polyset ps)) camera ["geometry", "bounding_box"] "-").cout
          = some d ∧
      d.contains "geometry" = true ∧ d.contains "camera" = false ∧
      d.contains "cache" = false) := by
  refine ⟨?_, ?_, ?_⟩
  · intro options filename hdest hgeo hbb
    obtain ⟨-, d, hd, hg⟩ := printAll_geometry_section env ms (.polyset ps) camera options
      filename _ hdest hne hgeo (fun p hp => by cases hp; exact hdim) rfl
    obtain ⟨f1, -, f3, f4⟩ :=
      StreamVisitor.geometryJson_PolySet_find (StatisticVisitor.new options) ps
    obtain ⟨b1, b2, b3⟩ := getBoundingBox3_find ps.getBoundingBox
    rw [hbb] at f4
    exact ⟨d, _, _, hd, hg, f1, f3, f4, b1, b2, b3⟩
  · intro options filename poly hdest hpne hgeo hbb
    obtain ⟨-, d, hd, hg⟩ := printAll_geometry_section env ms (.polygon2d poly) camera options
      filename _ hdest hpne hgeo (fun p hp => by cases hp) rfl
    obtain ⟨-, -, -, f4⟩ :=
      StreamVisitor.geometryJson_Polygon2d_find (StatisticVisitor.new options) poly
    obtain ⟨b1, b2, b3⟩ := getBoundingBox2_find poly.getBoundingBox
    rw [hbb] at f4
    exact ⟨d, _, _, hd, hg, f4, b1, b2, b3⟩
  · obtain ⟨-, d, hd, hg⟩ := printAll_geometry_section env ms (.polyset ps) camera
      ["geometry", "bounding_box"] "-" _ (by decide) hne (by decide)
      (fun p hp => by cases hp; exact hdim) rfl
    obtain ⟨hsink, -⟩ := printAll_sinks env ms (some (.polyset ps)) camera
      ["geometry", "bounding_box"] "-" (by decide)
    obtain ⟨hcout, -, -⟩ := hsink rfl
    refine ⟨d, by rw [hcout, hd], by rw [Json.contains, hg]; rfl, ?_, ?_⟩
    · by_contra hc
      rw [Bool.not_eq_false] at hc
      have := printAll_key_enabled env ms (some (.polyset ps)) camera
        ["geometry", "bounding_box"] "-" d hd "camera" (by simp) hc
      exact absurd this (by decide)
    · by_contra hc
      rw [Bool.not_eq_false] at hc
      have := printAll_key_enabled env ms (some (.polyset ps)) camera
        ["geometry", "bounding_box"] "-" d hd "cache" (by simp) hc
      exact absurd this (by decide)

/-- Witness for C7: 12 facets, `min = (0,0,0)`, `max = (1,1,1)`, categories
`geometry`, `bounding_box`, destination `-`: `facets = 12`, `size = [1,1,1]`, and
neither `camera` nor `cache` in the document on the standard output. -/
theorem solid_geometry_section_witness :
    exampleCube.isEmpty = false ∧ exampleCube.getDimension = 3 ∧
    (∃ d g bb,
      (printAll exampleEnv 0 (some (.polyset exampleCube)) exampleCamera
        ["geometry", "bounding_box"] "-").document = some d ∧
      d.find "geometry" = some g ∧
      g.find "dimensions" = some (.number_integer 3) ∧
      g.find "facets" = some (.number_integer 12) ∧
      g.find "bounding_box" = some bb ∧
      bb.find "size" = some (.array [.number_float 1, .number_float 1, .number_float 1])) ∧
    (∃ d, (printAll exampleEnv 0 (some (.polyset exampleCube)) exampleCamera
        ["geometry", "bounding_box"] "-").cout = some d ∧
      d.contains "geometry" = true ∧ d.contains "camera" = false ∧
      d.contains "cache" = false) := by
  obtain ⟨h1, -, h3⟩ :=
    solid_geometry_section exampleEnv 0 exampleCamera exampleCube rfl rfl
  obtain ⟨d, g, bb, hd, hg, f1, f2, f3, -, -, f6⟩ :=
    h1 ["geometry", "bounding_box"] "-" (by decide) (by decide) (by decide)
  refine ⟨rfl, rfl, ⟨d, g, bb, hd, hg, f1, f2, f3, ?_⟩, h3⟩
  rw [f6]
  simp [exampleCube, DoubleOps.sub]

/-! ## Gating of the document -/

/-- C2, as stated, fails on a solid that reports itself empty: with `geometry`
enabled and `bounding_box` not, the document of the Structured Renderer is null
and has no `geometry` section. -/
theorem structured_gating_counterexample :
    exampleEmptySolid.getDimension = 3 ∧
    (StatisticVisitor.new ["geometry"]).is_enabled GEOMETRY = true ∧
    (StatisticVisitor.new ["geometry"]).is_enabled BOUNDING_BOX = false ∧
    (printAll exampleEnv 0 (some (.polyset exampleEmptySolid)) exampleCamera
      ["geometry"] "-").document = some Json.null ∧
    (printAll exampleEnv 0 (some (.polyset exampleEmptySolid)) exampleCamera
      ["geometry"] "-").cout = some Json.null ∧
    (Json.null : Json ℚ).contains "geometry" = false := by
  refine ⟨rfl, by decide, by decide, ?_, ?_, rfl⟩ <;>
    simp [printAll, exampleEmptySolid, Geometry.isEmpty, Visitor.printCacheStatistic,
      Visitor.printRenderingTime, Visitor.printCamera, Visitor.finish,
      StreamVisitor.printCacheStatistic, StreamVisitor.printRenderingTime,
      StreamVisitor.printCamera, StatisticVisitor.new, StatisticVisitor.is_enabled,
      CACHE, TIME, CAMERA]

/-- C2, amended. In stream mode, for every requested-category list, geometry,
camera and elapsed time, the document contains a top-level key `X` among
`geometry`, `camera`, `cache`, `time` only if `is_enabled(X)`; and for every
Polygon2D, Solid3D (a `PolySet` of dimension 3) or NefSolid3D geometry that does
not report itself empty, when `geometry` is enabled but `bounding_box` is not,
the `geometry` section is present with all its other fields and has no
`bounding_box` key. -/
theorem structured_gating {R : Type} [DoubleOps R] (env : Env) (ms : Int)
    (camera : Camera R) (options : List String) (filename : String) (hdest : filename ≠ "") :
    (∀ (geom : Option (Geometry R)) (d : Json R),
      (printAll env ms geom camera options filename).document = some d →
      ∀ X ∈ ["geometry", "camera", "cache", "time"],
        d.contains X = true → (StatisticVisitor.new options).is_enabled X = true) ∧
    ((StatisticVisitor.new options).is_enabled GEOMETRY = true →
     (StatisticVisitor.new options).is_enabled BOUNDING_BOX = false →
      (∀ poly : Polygon2d R, poly.isEmpty = false →
        ∃ d g,
          (printAll env ms (some (.polygon2d poly)) camera options filename).document = some d ∧
          d.find "geometry" = some g ∧
          g.find "dimensions" = some (.number_integer 2) ∧
          g.find "convex" = some (.boolean poly.is_convex) ∧
          g.find "contours" = some (.number_integer poly.outlines_size) ∧
          g.contains "bounding_box" = false) ∧
      (∀ ps : PolySet R, ps.isEmpty = false → ps.getDimension = 3 →
        ∃ d g,
          (printAll env ms (some (.polyset ps)) camera options filename).document = some d ∧
          d.find "geometry" = some g ∧
          g.find "dimensions" = some (.number_integer 3) ∧
          g.find "convex" = some (.boolean ps.is_convex) ∧
          g.find "facets" = some (.number_integer ps.numFacets) ∧
          g.contains "bounding_box" = false) ∧
      (∀ nef : CGAL_Nef_polyhedron R, nef.isEmpty = false →
        ∃ d g,
          (printAll env ms (some (.nef nef)) camera options filename).document = some d ∧
          d.find "geometry" = some g ∧
          g.find "dimensions" = some (.number_integer 3) ∧
          g.find "simple" = some (.boolean nef.is_simple) ∧
          g.find "vertices" = some (.number_integer nef.number_of_vertices) ∧
          g.find "edges" = some (.number_integer nef.number_of_edges) ∧
          g.find "facets" = some (.number_integer nef.number_of_facets) ∧
          g.find "volumes" = some (.number_integer nef.number_of_volumes) ∧
          g.contains "bounding_box" = false)) := by
  refine ⟨fun geom d hd X hX hkey =>
    printAll_key_enabled env ms geom camera options filename d hd X hX hkey, ?_⟩
  intro hgeo hbb
  refine ⟨?_, ?_, ?_⟩
  · intro poly hne
    obtain ⟨-, d, hd, hg⟩ := printAll_geometry_section env ms (.polygon2d poly) camera options
      filename _ hdest hne hgeo (fun p hp => by cases hp) rfl
    obtain ⟨f1, f2, f3, f4⟩ :=
      StreamVisitor.geometryJson_Polygon2d_find (StatisticVisitor.new options) poly
    rw [hbb] at f4
    exact ⟨d, _, hd, hg, f1, f2, f3, by rw [Json.contains, f4]; rfl⟩
  · intro ps hne hdim
    obtain ⟨-, d, hd, hg⟩ := printAll_geometry_section env ms (.polyset ps) camera options
      filename _ hdest hne hgeo (fun p hp => by cases hp; exact hdim) rfl
    obtain ⟨f1, f2, f3, f4⟩ :=
      StreamVisitor.geometryJson_PolySet_find (StatisticVisitor.new options) ps
    rw [hbb] at f4
    exact ⟨d, _, hd, hg, f1, f2, f3, by rw [Json.contains, f4]; rfl⟩
  · intro nef hne
    obtain ⟨-, d, hd, hg⟩ := printAll_geometry_section env ms (.nef nef) camera options
      filename _ hdest hne hgeo (fun p hp => by cases hp) rfl
    obtain ⟨f1, f2, f3, f4, f5, f6, f7⟩ :=
      StreamVisitor.geometryJson_CGAL_Nef_polyhedron_find (StatisticVisitor.new options) nef
    rw [hbb] at f7
    exact ⟨d, _, hd, hg, f1, f2, f3, f4, f5, f6, by rw [Json.contains, f7]; rfl⟩

/-- Witness for the amended C2: the unit cube with categories `geometry`, `time`
and destination `-`. -/
theorem structured_gating_witness :
    ("-" : String) ≠ "" ∧
    (StatisticVisitor.new ["geometry", "time"]).is_enabled GEOMETRY = true ∧
    (StatisticVisitor.new ["geometry", "time"]).is_enabled BOUNDING_BOX = false ∧
    exampleCube.isEmpty = false ∧ exampleCube.getDimension = 3 ∧
    ∃ d g,
      (printAll exampleEnv 3723004 (some (.polyset exampleCube)) exampleCamera
        ["geometry", "time"] "-").document = some d ∧
      d.find "geometry" = some g ∧
      g.find "dimensions" = some (.number_integer 3) ∧
      g.find "convex" = some (.boolean true) ∧
      g.find "facets" = some (.number_integer 12) ∧
      g.contains "bounding_box" = false ∧
      d.contains "camera" = false ∧ d.contains "cache" = false := by
  obtain ⟨hkeys, hsec⟩ :=
    structured_gating exampleEnv 3723004 exampleCamera ["geometry", "time"] "-" (by decide)
  obtain ⟨d, g, hd, hg, f1, f2, f3, f4⟩ :=
    (hsec (by decide) (by decide)).2.1 exampleCube rfl rfl
  refine ⟨by decide, by decide, by decide, rfl, rfl, d, g, hd, hg, f1, f2, f3, f4, ?_, ?_⟩
  · by_contra hc
    rw [Bool.not_eq_false] at hc
    exact absurd (hkeys _ d hd "camera" (by simp) hc) (by decide)
  · by_contra hc
    rw [Bool.not_eq_false] at hc
    exact absurd (hkeys _ d hd "cache" (by simp) hc) (by decide)

/-! ## Manifold solids that are not simple -/

theorem LogVisitor.printBoundingBox3_no_warning {R : Type} [DoubleOps R] (v : StatisticVisitor)
    (bb : BoundingBox R) :
    (LogVisitor.printBoundingBox3 v bb).filter LogEvent.isWarning = [] := by
  unfold LogVisitor.printBoundingBox3
  split <;> simp [logNone, LogEvent.isWarning]

theorem LogVisitor.printCamera_no_warning {R : Type} [DoubleOps R] (v : StatisticVisitor)
    (camera : Camera R) :
    (LogVisitor.printCamera v camera).filter LogEvent.isWarning = [] := by
  unfold LogVisitor.printCamera
  split <;> simp [logNone, LogEvent.isWarning]

/-- The warning lines of the log renderer on a 3D manifold solid: one when the
solid is not simple, none when it is. -/
theorem LogVisitor.visit_nef_warnings {R : Type} [DoubleOps R] (v : StatisticVisitor)
    (nef : CGAL_Nef_polyhedron R) (h3 : nef.getDimension = 3) :
    (LogVisitor.visit_CGAL_Nef_polyhedron v nef).filter LogEvent.isWarning =
      if nef.is_simple then []
      else [LogEvent.LOG .UI_Warning "Object may not be a valid 2-manifold and may need repair!"]
    := by
  unfold LogVisitor.visit_CGAL_Nef_polyhedron
  simp only [h3, if_true, List.filter_append, LogVisitor.printBoundingBox3_no_warning,
    List.append_nil]
  cases nef.is_simple <;> simp [logNone, LogEvent.isWarning]

theorem LogVisitor.visit_nef_simple_line {R : Type} [DoubleOps R] (v : StatisticVisitor)
    (nef : CGAL_Nef_polyhedron R) (h3 : nef.getDimension = 3) (hs : nef.is_simple = false) :
    LogEvent.LOG .None "   Simple:         no" ∈ LogVisitor.visit_CGAL_Nef_polyhedron v nef := by
  unfold LogVisitor.visit_CGAL_Nef_polyhedron
  simp only [h3, if_true, hs, List.mem_append, List.mem_cons]
  left; left; right; left
  show LogEvent.LOG .None "   Simple:         no" = LogEvent.LOG .None _
  congr 1

/-- The log of `printAll` on a non-empty 3D manifold solid. -/
theorem printAll_log_nef {R : Type} [DoubleOps R] (env : Env) (ms : Int)
    (nef : CGAL_Nef_polyhedron R) (camera : Camera R) (options : List String)
    (hne : nef.isEmpty = false) :
    (printAll env ms (some (.nef nef)) camera options "").log =
      LogVisitor.printCacheStatistic (StatisticVisitor.new options)
        ++ LogVisitor.printRenderingTime (StatisticVisitor.new options) ms
        ++ (LogVisitor.visit_CGAL_Nef_polyhedron (StatisticVisitor.new options) nef
          ++ LogVisitor.printCamera (StatisticVisitor.new options) camera) := by
  obtain ⟨hlog, -⟩ := printAll_log env ms (some (.nef nef)) camera options
  rw [hlog]
  simp [LogVisitor.geometryStep, Geometry.isEmpty, hne, LogVisitor.accept]

theorem printAll_log_nef_warnings {R : Type} [DoubleOps R] (env : Env) (ms : Int)
    (nef : CGAL_Nef_polyhedron R) (camera : Camera R) (options : List String)
    (hne : nef.isEmpty = false) (h3 : nef.getDimension = 3) :
    (printAll env ms (some (.nef nef)) camera options "").log.filter LogEvent.isWarning =
      if nef.is_simple then []
      else [LogEvent.LOG .UI_Warning "Object may not be a valid 2-manifold and may need repair!"]
    := by
  rw [printAll_log_nef env ms nef camera options hne]
  simp only [List.filter_append, LogVisitor.printCamera_no_warning,
    LogVisitor.visit_nef_warnings _ _ h3, List.append_nil]
  simp [LogVisitor.printCacheStatistic, LogVisitor.printRenderingTime, logNone,
    LogEvent.isWarning]

/-- C9. For every 3D manifold solid whose simplicity flag is false, both renderers
report `simple = false`: the Log Renderer, for every requested-category list,
sends the `Simple:` line with value `no` and exactly one line of warning
severity; the Structured Renderer, when `geometry` is enabled, stores
`simple = false` in the `geometry` section. When the flag is true, no line of
warning severity is sent. This holds for the renderers handed the solid, and for
`printAll` on every such solid that does not report itself empty. -/
theorem nef_simple_flag_reported {R : Type} [DoubleOps R] (options : List String)
    (nef : CGAL_Nef_polyhedron R) (h3 : nef.getDimension = 3) :
    (nef.is_simple = false →
      LogEvent.LOG .None "   Simple:         no" ∈
        LogVisitor.visit_CGAL_Nef_polyhedron (StatisticVisitor.new options) nef ∧
      (LogVisitor.visit_CGAL_Nef_polyhedron (StatisticVisitor.new options) nef).filter
          LogEvent.isWarning =
        [LogEvent.LOG .UI_Warning "Object may not be a valid 2-manifold and may need repair!"] ∧
      ((StatisticVisitor.new options).is_enabled GEOMETRY = true →
        ∀ json : Json R, json.isDoc = true →
          ∃ g, (StreamVisitor.visit_CGAL_Nef_polyhedron (StatisticVisitor.new options) nef
              json).find "geometry" = some g ∧
            g.find "simple" = some (.boolean false))) ∧
    (nef.is_simple = true →
      (LogVisitor.visit_CGAL_Nef_polyhedron (StatisticVisitor.new options) nef).filter
          LogEvent.isWarning = []) ∧
    (nef.isEmpty = false → ∀ (env : Env) (ms : Int) (camera : Camera R),
      (nef.is_simple = false →
        LogEvent.LOG .None "   Simple:         no" ∈
          (printAll env ms (some (.nef nef)) camera options "").log ∧
        (printAll env ms (some (.nef nef)) camera options "").log.filter LogEvent.isWarning =
          [LogEvent.LOG .UI_Warning
            "Object may not be a valid 2-manifold and may need repair!"] ∧
        (∀ filename : String, filename ≠ "" →
          (StatisticVisitor.new options).is_enabled GEOMETRY = true →
          ∃ d g, (printAll env ms (some (.nef nef)) camera options filename).document = some d ∧
            d.find "geometry" = some g ∧ g.find "simple" = some (.boolean false))) ∧
      (nef.is_simple = true →
        (printAll env ms (some (.nef nef)) camera options "").log.filter LogEvent.isWarning
          = [])) := by
  refine ⟨?_, ?_, ?_⟩
  · intro hs
    refine ⟨LogVisitor.visit_nef_simple_line _ nef h3 hs, ?_, ?_⟩
    · rw [LogVisitor.visit_nef_warnings _ nef h3, hs]
      rfl
    · intro hgeo json hjson
      obtain ⟨-, f2, -⟩ :=
        StreamVisitor.geometryJson_CGAL_Nef_polyhedron_find (StatisticVisitor.new options) nef
      rw [hs] at f2
      refine ⟨_, ?_, f2⟩
      have : StreamVisitor.visit_CGAL_Nef_polyhedron (StatisticVisitor.new options) nef json =
          json.set "geometry"
            (StreamVisitor.geometryJson_CGAL_Nef_polyhedron (StatisticVisitor.new options) nef)
          := by
        simp only [StreamVisitor.visit_CGAL_Nef_polyhedron, hgeo, if_true]
        rfl
      rw [this]
      exact Json.find_set_self _ _ _ hjson
  · intro hs
    rw [LogVisitor.visit_nef_warnings _ nef h3, hs]
    rfl
  · intro hne env ms camera
    constructor
    · intro hs
      refine ⟨?_, ?_, ?_⟩
      · rw [printAll_log_nef env ms nef camera options hne]
        simp only [List.mem_append]
        right; left
        exact LogVisitor.visit_nef_simple_line _ nef h3 hs
      · rw [printAll_log_nef_warnings env ms nef camera options hne h3, hs]
        rfl
      · intro filename hdest hgeo
        obtain ⟨-, d, hd, hg⟩ := printAll_geometry_section env ms (.nef nef) camera options
          filename _ hdest hne hgeo (fun p hp => by cases hp) rfl
        obtain ⟨-, f2, -⟩ :=
          StreamVisitor.geometryJson_CGAL_Nef_polyhedron_find (StatisticVisitor.new options) nef
        rw [hs] at f2
        exact ⟨d, _, hd, hg, f2⟩
    · intro hs
      rw [printAll_log_nef_warnings env ms nef camera options hne h3, hs]
      rfl

/-- Witness for C9: a manifold solid that is not simple, with no category
requested for the log and `geometry` requested for the document. -/
theorem nef_simple_flag_reported_witness :
    exampleNef.getDimension = 3 ∧ exampleNef.is_simple = false ∧ exampleNef.isEmpty = false ∧
    LogEvent.LOG .None "   Simple:         no" ∈
      (printAll exampleEnv 0 (some (.nef exampleNef)) exampleCamera [] "").log ∧
    (printAll exampleEnv 0 (some (.nef exampleNef)) exampleCamera [] "").log.filter
        LogEvent.isWarning =
      [LogEvent.LOG .UI_Warning "Object may not be a valid 2-manifold and may need repair!"] ∧
    (∃ d g, (printAll exampleEnv 0 (some (.nef exampleNef)) exampleCamera ["geometry"]
          "-").document = some d ∧
      d.find "geometry" = some g ∧ g.find "simple" = some (.boolean false)) := by
  obtain ⟨-, -, hlog⟩ := nef_simple_flag_reported ([] : List String) exampleNef rfl
  obtain ⟨hline, hwarn, -⟩ := (hlog rfl exampleEnv 0 exampleCamera).1 rfl
  obtain ⟨-, -, hdoc⟩ := nef_simple_flag_reported ["geometry"] exampleNef rfl
  obtain ⟨-, -, hstream⟩ := (hdoc rfl exampleEnv 0 exampleCamera).1 rfl
  exact ⟨rfl, rfl, rfl, hline, hwarn, hstream "-" (by decide) (by decide)⟩

/-! ## Lists of geometries -/

/-- C10, as stated, fails for the Structured Renderer: for a non-empty list of two
children with `geometry` enabled, the document is null, so it records no child
count, and it is the document of a run without any geometry. -/
theorem list_child_count_counterexample :
    (StatisticVisitor.new ["geometry"]).is_enabled GEOMETRY = true ∧
    (printAll exampleEnv 0
      (some (.list false [.polyset exampleCube, .polygon2d exampleSquare]))
      exampleCamera ["geometry"] "-").document = some Json.null ∧
    (printAll exampleEnv 0
      (some (.list false [.polyset exampleCube, .polygon2d exampleSquare]))
      exampleCamera ["geometry"] "-").cout = some Json.null ∧
    (printAll exampleEnv 0
      (some (.list false [.polyset exampleCube, .polygon2d exampleSquare]))
      exampleCamera ["geometry"] "-").document =
    (printAll exampleEnv 0 none exampleCamera ["geometry"] "-").document := by
  refine ⟨by decide, ?_, ?_, ?_⟩ <;>
    simp [printAll, Geometry.isEmpty, Visitor.printCacheStatistic, Visitor.accept,
      StreamVisitor.accept, StreamVisitor.visit_GeometryList,
      Visitor.printRenderingTime, Visitor.printCamera, Visitor.finish,
      StreamVisitor.printCacheStatistic, StreamVisitor.printRenderingTime,
      StreamVisitor.printCamera, StatisticVisitor.new, StatisticVisitor.is_enabled,
      CACHE, TIME, CAMERA]

/-- C10, amended. For every non-empty List geometry with `n` children, the Log
Renderer sends, between the time line and the camera block, the list header and
an `Objects:` line carrying `n`, and nothing else: its whole outcome depends on
the children only through `n`. The Structured Renderer records nothing for a
List geometry: for every requested-category list its outcome is that of a run
without geometry. -/
theorem list_contributes_child_count_to_log_only {R : Type} [DoubleOps R] (env : Env)
    (ms : Int) (camera : Camera R) (options : List String) (children : List (Geometry R)) :
    (printAll env ms (some (.list false children)) camera options "").log =
      LogVisitor.printCacheStatistic (StatisticVisitor.new options)
        ++ LogVisitor.printRenderingTime (StatisticVisitor.new options) ms
        ++ [ LogEvent.LOG .None "Top level object is a list of objects:",
             LogEvent.LOG .None ("   Objects:    " ++ toString children.length) ]
        ++ LogVisitor.printCamera (StatisticVisitor.new options) camera ∧
    (∀ others : List (Geometry R), others.length = children.length →
      printAll env ms (some (.list false others)) camera options "" =
        printAll env ms (some (.list false children)) camera options "") ∧
    (∀ filename : String, filename ≠ "" →
      printAll env ms (some (.list false children)) camera options filename =
        printAll env ms none camera options filename) := by
  refine ⟨?_, ?_, ?_⟩
  · obtain ⟨hlog, -⟩ := printAll_log env ms (some (.list false children)) camera options
    rw [hlog]
    simp only [LogVisitor.geometryStep, Geometry.isEmpty, Bool.not_false, if_true,
      LogVisitor.accept, LogVisitor.visit_GeometryList, logNone, List.append_assoc,
      List.cons_append, List.nil_append]
    rfl
  · intro others hlen
    simp [printAll, Geometry.isEmpty, Visitor.accept, LogVisitor.accept,
      LogVisitor.visit_GeometryList, Visitor.printCacheStatistic, Visitor.printRenderingTime,
      hlen]
  · intro filename hdest
    by_cases hd : filename = "-" <;>
      simp [printAll, hdest, hd, Geometry.isEmpty, Visitor.accept, StreamVisitor.accept,
        StreamVisitor.visit_GeometryList, Visitor.printCacheStatistic,
        Visitor.printRenderingTime]

/-! ## Destinations that cannot be opened -/

/-- C8, as stated, fails: with a destination file that cannot be opened,
`printAll` neither throws nor aborts; it returns after writing the document
nowhere. -/
theorem unopenable_destination_counterexample :
    exampleEnv.canOpen "/nonexistent/stats.json" = false ∧
    (printAll exampleEnv 0 (some (.polyset exampleCube)) exampleCamera ["all"]
      "/nonexistent/stats.json").thrown = false ∧
    (printAll exampleEnv 0 (some (.polyset exampleCube)) exampleCamera ["all"]
      "/nonexistent/stats.json").aborted = false ∧
    (printAll exampleEnv 0 (some (.polyset exampleCube)) exampleCamera ["all"]
      "/nonexistent/stats.json").file = none ∧
    (printAll exampleEnv 0 (some (.polyset exampleCube)) exampleCamera ["all"]
      "/nonexistent/stats.json").cout = none ∧
    (printAll exampleEnv 0 (some (.polyset exampleCube)) exampleCamera ["all"]
      "/nonexistent/stats.json").log = [] := by
  have hdest : ("/nonexistent/stats.json" : String) ≠ "" := by decide
  have hdash : ("/nonexistent/stats.json" : String) ≠ "-" := by decide
  have hopen : exampleEnv.canOpen "/nonexistent/stats.json" = false := by
    simp [exampleEnv]
  obtain ⟨-, hab, hlog, hthrown⟩ := printAll_stream exampleEnv 0
    (some (.polyset exampleCube)) exampleCamera ["all"] "/nonexistent/stats.json" hdest
  obtain ⟨-, hsink⟩ := printAll_sinks exampleEnv 0
    (some (.polyset exampleCube)) exampleCamera ["all"] "/nonexistent/stats.json" hdest
  obtain ⟨hcout, hfile, -⟩ := hsink hdash
  refine ⟨hopen, hthrown, ?_, ?_, hcout, hlog⟩
  · rw [hab, StreamVisitor.beforeCamera]
    simp only [exampleCube, Geometry.isEmpty, Bool.not_false, if_true, StreamVisitor.accept,
      StreamVisitor.visit_PolySet]
    split <;> rfl
  · rw [hfile, hopen]
    rfl

/-- C8, amended. For every geometry, camera and requested-category list,
`printAll` never propagates a failure to its caller; when the destination is a
file name (neither empty nor `-`) that cannot be opened, the run writes the
document nowhere, neither to a file nor to the standard output nor to the log;
in log mode the outcome does not depend on the file system at all; and on every
geometry that meets the condition asserted by the code the run reaches
`finish()` and returns, whatever the destination. -/
theorem unopenable_destination_is_silent {R : Type} [DoubleOps R] (env : Env) (ms : Int)
    (geom : Option (Geometry R)) (camera : Camera R) (options : List String) :
    (∀ filename : String, (printAll env ms geom camera options filename).thrown = false) ∧
    (∀ filename : String, filename ≠ "" → filename ≠ "-" → env.canOpen filename = false →
      (printAll env ms geom camera options filename).file = none ∧
      (printAll env ms geom camera options filename).cout = none ∧
      (printAll env ms geom camera options filename).opened = none ∧
      (printAll env ms geom camera options filename).log = []) ∧
    (∀ env2 : Env, printAll env2 ms geom camera options "" =
      printAll env ms geom camera options "") ∧
    ((∀ g, geom = some g → g.dimensionAsserted = true) →
      ∀ filename : String, (printAll env ms geom camera options filename).aborted = false) := by
  refine ⟨?_, ?_, ?_, fun hassert filename =>
    printAll_not_aborted env ms geom camera options filename hassert⟩
  · intro filename
    by_cases hdest : filename = ""
    · subst hdest
      exact (printAll_log env ms geom camera options).2.2.2.2.2.2
    · exact (printAll_stream env ms geom camera options filename hdest).2.2.2
  · intro filename hdest hdash hopen
    obtain ⟨-, -, hlog, -⟩ := printAll_stream env ms geom camera options filename hdest
    obtain ⟨-, hsink⟩ := printAll_sinks env ms geom camera options filename hdest
    obtain ⟨hcout, hfile, hopened⟩ := hsink hdash
    refine ⟨?_, hcout, ?_, hlog⟩
    · rw [hfile, hopen]; rfl
    · rw [hopened, hopen]; rfl
  · intro env2
    simp [printAll, Visitor.printCacheStatistic, Visitor.printRenderingTime]

/-- Witness for the amended C8: the file `/nonexistent/stats.json` cannot be
opened in the example environment. -/
theorem unopenable_destination_is_silent_witness :
    ("/nonexistent/stats.json" : String) ≠ "" ∧ ("/nonexistent/stats.json" : String) ≠ "-" ∧
    exampleEnv.canOpen "/nonexistent/stats.json" = false ∧
    (printAll exampleEnv 0 (some (.polyset exampleCube)) exampleCamera ["all"]
      "/nonexistent/stats.json").thrown = false ∧
    (printAll exampleEnv 0 (some (.polyset exampleCube)) exampleCamera ["all"]
      "/nonexistent/stats.json").aborted = false ∧
    (printAll exampleEnv 0 (some (.polyset exampleCube)) exampleCamera ["all"]
      "/nonexistent/stats.json").file = none ∧
    (printAll exampleEnv 0 (some (.polyset exampleCube)) exampleCamera ["all"]
      "/nonexistent/stats.json").cout = none := by
  have hopen : exampleEnv.canOpen "/nonexistent/stats.json" = false := by
    simp [exampleEnv]
  obtain ⟨h1, h2, -, h4⟩ := unopenable_destination_is_silent exampleEnv 0
    (some (.polyset exampleCube)) exampleCamera ["all"]
  obtain ⟨hfile, hcout, -, -⟩ := h2 "/nonexistent/stats.json" (by decide) (by decide) hopen
  exact ⟨by decide, by decide, hopen, h1 _, h4 (fun g hg => by cases hg; rfl) _, hfile, hcout⟩

/-! ## Concrete instances -/

/-- Witness for C3: 3723004 ms is 1 h, 2 min, 3 s, 4 ms. -/
theorem time_fields_recompose_witness :
    (0 : Int) ≤ 3723004 ∧
    (StatisticVisitor.new ["time"]).is_enabled TIME = true ∧
    (Geometry.polyset exampleCube).dimensionAsserted = true ∧
    ∃ d t,
      (printAll exampleEnv 3723004 (some (.polyset exampleCube)) exampleCamera ["time"]
        "-").document = some d ∧
      d.find "time" = some t ∧
      t.find "hours" = some (.number_integer 1) ∧
      t.find "minutes" = some (.number_integer 2) ∧
      t.find "seconds" = some (.number_integer 3) ∧
      t.find "milliseconds" = some (.number_integer 4) ∧
      t.find "total" = some (.number_integer 3723004) ∧
      (1 : Int) * 3600000 + 2 * 60000 + 3 * 1000 + 4 = 3723004 := by
  obtain ⟨d, t, hd, ht, f1, f2, f3, f4, f5, -⟩ :=
    time_fields_recompose exampleEnv 3723004 (by decide) (some (.polyset exampleCube))
      exampleCamera ["time"] "-" (by decide) (by decide)
      (fun g hg => by cases hg; rfl)
  exact ⟨by decide, by decide, rfl, d, t, hd, ht, f1, f2, f3, f4, f5, by decide⟩

/-- Witness for C4: 3723004 ms is rendered `1:02:03.004` by both renderers. -/
theorem time_string_is_spec_string_witness :
    (0 : Int) ≤ 3723004 ∧
    specTimeString 3723004 = "1:02:03.004" ∧
    (∃ rest, (printAll exampleEnv 3723004 (none : Option (Geometry ℚ)) exampleCamera [] "").log =
      [ LogEvent.GeometryCache_print, LogEvent.CGALCache_print,
        LogEvent.LOG .None "Total rendering time: 1:02:03.004" ] ++ rest) ∧
    (∃ d t, (printAll exampleEnv 3723004 (none : Option (Geometry ℚ)) exampleCamera ["time"]
        "-").document = some d ∧
      d.find "time" = some t ∧ t.find "time" = some (.string "1:02:03.004")) := by
  have hspec : specTimeString 3723004 = "1:02:03.004" := by decide
  obtain ⟨⟨rest, hlog⟩, -⟩ :=
    time_string_is_spec_string exampleEnv 3723004 (by decide) (none : Option (Geometry ℚ))
      exampleCamera []
  obtain ⟨-, hstream⟩ :=
    time_string_is_spec_string exampleEnv 3723004 (by decide) (none : Option (Geometry ℚ))
      exampleCamera ["time"]
  obtain ⟨d, t, -, -, -, -, hd, ht, f1, -⟩ :=
    hstream "-" (by decide) (by decide) (fun g hg => by cases hg)
  have htn : (3723004 : Int).toNat = 3723004 := rfl
  rw [htn, hspec] at hlog f1
  exact ⟨by decide, hspec, ⟨rest, hlog⟩, d, t, hd, ht, f1⟩

/-- Instance of C5: the unit cube in log mode with no category requested. -/
theorem log_mode_cache_and_time_unconditional_witness :
    (∃ timeString rest,
      (printAll exampleEnv 0 (some (.polyset exampleCube)) exampleCamera [] "").log =
        [ LogEvent.GeometryCache_print, LogEvent.CGALCache_print,
          LogEvent.LOG .None ("Total rendering time: " ++ timeString) ] ++ rest) ∧
    (∀ group text, LogEvent.LOG group text ∈
        (printAll exampleEnv 0 (some (.polyset exampleCube)) exampleCamera [] "").log →
      text ≠ "Bounding box:" ∧ text ≠ "Camera:") := by
  obtain ⟨h1, h2⟩ := log_mode_cache_and_time_unconditional exampleEnv 0
    (some (.polyset exampleCube)) exampleCamera []
  exact ⟨h1, h2 (by simp) (by simp) (by simp)⟩

/-- Witness for C6: a solid that reports itself empty, with every category
requested. -/
theorem empty_geometry_no_section_witness :
    (Geometry.polyset exampleEmptySolid).isEmpty = true ∧
    (printAll exampleEnv 0 (some (.polyset exampleEmptySolid)) exampleCamera ["all"] "").log =
      LogVisitor.printCacheStatistic (StatisticVisitor.new ["all"])
        ++ LogVisitor.printRenderingTime (StatisticVisitor.new ["all"]) 0
        ++ LogVisitor.printCamera (StatisticVisitor.new ["all"]) exampleCamera ∧
    (∃ d, (printAll exampleEnv 0 (some (.polyset exampleEmptySolid)) exampleCamera ["all"]
        "-").document = some d ∧ d.contains "geometry" = false) := by
  obtain ⟨h1, -, h3⟩ := empty_geometry_no_section exampleEnv 0
    (some (.polyset exampleEmptySolid)) exampleCamera ["all"] (Or.inr ⟨_, rfl, rfl⟩)
  obtain ⟨d, hd, -, hc⟩ := h3 "-" (by decide)
  exact ⟨rfl, h1, d, hd, hc⟩

/-- Instance of the amended C10: a list of two children. -/
theorem list_contributes_child_count_to_log_only_witness :
    (printAll exampleEnv 0
      (some (.list false [.polyset exampleCube, .polygon2d exampleSquare]))
      exampleCamera [] "").log =
      [ LogEvent.GeometryCache_print, LogEvent.CGALCache_print,
        LogEvent.LOG .None "Total rendering time: 0:00:00.000",
        LogEvent.LOG .None "Top level object is a list of objects:",
        LogEvent.LOG .None "   Objects:    2" ] ∧
    printAll exampleEnv 0
      (some (.list false [.polyset exampleCube, .polygon2d exampleSquare]))
      exampleCamera ["all"] "-" =
    printAll exampleEnv 0 none exampleCamera ["all"] "-" := by
  obtain ⟨h1, -, h3⟩ := list_contributes_child_count_to_log_only exampleEnv 0 exampleCamera []
    [.polyset exampleCube, .polygon2d exampleSquare]
  obtain ⟨-, -, h3⟩ := list_contributes_child_count_to_log_only exampleEnv 0 exampleCamera
    ["all"] [.polyset exampleCube, .polygon2d exampleSquare]
  refine ⟨?_, h3 "-" (by decide)⟩
  rw [h1]
  decide

end RenderStatistic
